import Mathlib

/-!
Verification of the conversational banking backend (`src/chatbot`): a shallow
embedding of `state.py`, `router.py`, `handlers.py`, `services.py` and
`engine.py` in Lean 4, together with proofs of the behavioural claims about
the routing, slot-filling and confirmation logic.

Modelling conventions:
* Python strings are Lean `String`s; `str.strip`, `str.lower`, `str.title`
  and `str.replace(",", "")` are modelled character-by-character for the
  ASCII range (all strings the program compares against are ASCII).
* Python `float(...)` conversion is modelled by an exact parser producing
  the decimal value `num / 10 ^ dexp`, with IEEE-754 double overflow to
  infinity and underflow to zero applied at the binary64 boundaries, plus
  `inf`/`nan` literals.  Finite in-range values are kept exact: the control
  flow only ever asks for the comparison `amount <= 0`, and within the
  binary64 range rounding to the nearest double never changes the sign or
  zero-ness of a value, so the comparison agrees with CPython's.
* The mutable `ConversationState` and the in-memory services are passed and
  returned explicitly; `dict` slot storage is an association list with
  `dict`-style update.
* A Python runtime error (a `KeyError`/`TypeError` from reading a missing or
  wrongly-typed slot) is modelled by `Option`/`Except` failure; the engine's
  `HandlerNotFoundError` is an explicit error value.
-/

set_option maxRecDepth 16384
set_option exponentiation.threshold 2000

namespace BankingChatbot

/-! ## Python string primitives -/

/-- The characters `str.strip()` removes (ASCII whitespace, as in CPython). -/
def isPySpace (c : Char) : Bool :=
  c = ' ' || c = '\t' || c = '\n' || c = '\r' || c = '\x0b' || c = '\x0c'

/-- `str.strip()`: remove leading and trailing whitespace. -/
def pyStrip (s : String) : String :=
  ⟨((s.data.dropWhile isPySpace).reverse.dropWhile isPySpace).reverse⟩

/-- `str.lower()` (ASCII range). -/
def pyLower (s : String) : String :=
  ⟨s.data.map Char.toLower⟩

/-- `str.replace(",", "")`: drop every comma. -/
def removeCommas (s : String) : String :=
  ⟨s.data.filter (fun c => c ≠ ',')⟩

/-- Helper for `str.title()`: the boolean tracks whether the previous
character was alphabetic. -/
def pyTitleAux : Bool → List Char → List Char
  | _, [] => []
  | prev, c :: rest =>
    if c.isAlpha then
      (if prev then c.toLower else c.toUpper) :: pyTitleAux true rest
    else
      c :: pyTitleAux false rest

/-- `str.title()` (ASCII range). -/
def pyTitle (s : String) : String :=
  ⟨pyTitleAux false s.data⟩

/-- Does `small` occur at the start of `big`? -/
def leadsWith : List Char → List Char → Bool
  | [], _ => true
  | _ :: _, [] => false
  | a :: as, b :: bs => a = b && leadsWith as bs

/-- Does `needle` occur contiguously inside `hay`? -/
def occursIn (needle : List Char) : List Char → Bool
  | [] => leadsWith needle []
  | c :: rest => leadsWith needle (c :: rest) || occursIn needle rest

/-- Python's `needle in hay` on strings (substring containment). -/
def strContains (hay needle : String) : Bool :=
  occursIn needle.data hay.data

/-- Left-pad a string with `'0'` up to width `w` (Python `{:0wd}`). -/
def padZeros (w : Nat) (s : String) : String :=
  if s.length < w then ⟨List.replicate (w - s.length) '0'⟩ ++ s else s

/-! ## Python `float(...)`

A CPython `float` produced by this program is modelled exactly: a finite
value is kept as the pair `(num, dexp)` denoting the rational
`num / 10 ^ dexp` (every float literal is such a decimal), and the
binary64 overflow/underflow boundaries are applied on parsing, so the sign
test `x <= 0` — the only comparison the program performs on floats —
agrees with CPython's.  Values never produced by the same parse are never
compared with each other, so the non-canonical representation is harmless.
-/

/-- The value carried by a CPython `float` in this program:
`finite num dexp` denotes `num / 10 ^ dexp`. -/
inductive PyFloat
  | finite (num : Int) (dexp : Nat)
  | inf
  | neginf
  | nan
deriving DecidableEq

/-- The rational value of a `PyFloat`, when it is finite. -/
def PyFloat.val? : PyFloat → Option ℚ
  | .finite num dexp => some ((num : ℚ) / ((10 ^ dexp : Nat) : ℚ))
  | _ => none

/-- Numeric value of a list of decimal digits. -/
def digitsVal (l : List Char) : Nat :=
  l.foldl (fun a c => 10 * a + (c.toNat - '0'.toNat)) 0

/-- Continue a digit run after at least one digit has been read: further
digits, with single underscores allowed only between digits (as in CPython's
float grammar).  Returns the digits read and the rest, or `none` on a
misplaced underscore. -/
def digitRunCont : List Char → Option (List Char × List Char)
  | [] => some ([], [])
  | c :: rest =>
    if c.isDigit then
      match digitRunCont rest with
      | some (ds, r) => some (c :: ds, r)
      | none => none
    else if c = '_' then
      match rest with
      | d :: rest2 =>
        if d.isDigit then
          match digitRunCont rest2 with
          | some (ds, r) => some (d :: ds, r)
          | none => none
        else none
      | [] => none
    else some ([], c :: rest)

/-- A digit run: at least one digit, underscores only between digits. -/
def digitRun : List Char → Option (List Char × List Char)
  | [] => none
  | c :: rest =>
    if c.isDigit then
      match digitRunCont rest with
      | some (ds, r) => some (c :: ds, r)
      | none => none
    else none

/-- Parse the mantissa `digits [. [digits]] | . digits`; returns the digits
value, the number of fractional digits, and the rest of the input. -/
def parseMantissa (l : List Char) : Option (Nat × Nat × List Char) :=
  match digitRun l with
  | some (ds, rest) =>
    match rest with
    | '.' :: rest2 =>
      match digitRun rest2 with
      | some (fs, rest3) => some (digitsVal (ds ++ fs), fs.length, rest3)
      | none => some (digitsVal ds, 0, rest2)
    | _ => some (digitsVal ds, 0, rest)
  | none =>
    match l with
    | '.' :: rest2 =>
      match digitRun rest2 with
      | some (fs, rest3) => some (digitsVal fs, fs.length, rest3)
      | none => none
    | _ => none

/-- Parse an optional exponent `("e"|"E") [sign] digits`. -/
def parseExpPart : List Char → Option (Int × List Char)
  | [] => some (0, [])
  | c :: rest =>
    if c = 'e' || c = 'E' then
      match rest with
      | '+' :: rest2 =>
        match digitRun rest2 with
        | some (ds, rest3) => some ((digitsVal ds : Int), rest3)
        | none => none
      | '-' :: rest2 =>
        match digitRun rest2 with
        | some (ds, rest3) => some (-(digitsVal ds : Int), rest3)
        | none => none
      | rest2 =>
        match digitRun rest2 with
        | some (ds, rest3) => some ((digitsVal ds : Int), rest3)
        | none => none
    else some (0, c :: rest)

/-- Smallest integer magnitude that rounds to infinity in binary64, as a
multiple of the denominator: a value `q` rounds to `inf` iff
`q ≥ 2 ^ 1024 - 2 ^ 970` (the midpoint above the largest finite double
rounds up under round-half-even). -/
def doubleHugeInt : Int :=
  179769313486231580793728971405303415079934132710037826936173778980444968292764750946649017977587207096330286416692887910946555547851940402630657488671505820681908902000708383676273854845817711531764475730270069855571366959622842914819860834936475292719074168444365510704342711559699508093042880177904174497792

/-- A magnitude of at most `2 ^ (-1075)` rounds to (signed) zero in
binary64; this is that threshold's reciprocal. -/
def doubleTinyDen : Nat :=
  404804506614621236704990693437834614099113299528284236713802716054860679135990693783920767402874248990374155728633623822779617474771586953734026799881477019843034848553132722728933815484186432682479535356945490137124014966849385397236206711298319112681620113024717539104666829230461005064372655017292012526615415482186989568

/-- Apply binary64 overflow/underflow to the exact decimal `num / 10 ^ dexp`,
as CPython's string-to-float conversion does.  In-range values stay exact
(see the section header: only their sign is ever inspected). -/
def fitDouble (num : Int) (dexp : Nat) : PyFloat :=
  let D : Int := ((10 ^ dexp : Nat) : Int)
  if doubleHugeInt * D ≤ num then .inf
  else if num ≤ -(doubleHugeInt * D) then .neginf
  else if (num.natAbs * doubleTinyDen : Int) ≤ D then .finite 0 0
  else .finite num dexp

/-- Combine a sign, mantissa value, fractional length and exponent into the
parsed float `± m * 10 ^ (e - fl)`. -/
def mkParsed (neg : Bool) (m : Nat) (fl : Nat) (e : Int) : PyFloat :=
  let sgn : Int := if neg then -1 else 1
  if (fl : Int) ≤ e then fitDouble (sgn * (m : Int) * ((10 ^ (e - (fl : Int)).toNat : Nat) : Int)) 0
  else fitDouble (sgn * (m : Int)) ((fl : Int) - e).toNat

/-- Parse the part of a float literal after the optional sign:
`inf`/`infinity`/`nan` (case-insensitive) or a decimal mantissa with
optional exponent, consuming the whole input. -/
def parseAfterSign (neg : Bool) (l : List Char) : Option PyFloat :=
  let low := l.map Char.toLower
  if low = "inf".data || low = "infinity".data then
    some (if neg then .neginf else .inf)
  else if low = "nan".data then
    some .nan
  else
    match parseMantissa l with
    | none => none
    | some (m, fl, rest) =>
      match parseExpPart rest with
      | none => none
      | some (e, rest2) =>
        if rest2 = [] then some (mkParsed neg m fl e) else none

/-- An optional leading sign, then the body of the literal. -/
def pyFloatCore : List Char → Option PyFloat
  | '+' :: rest => parseAfterSign false rest
  | '-' :: rest => parseAfterSign true rest
  | l => parseAfterSign false l

/-- CPython's `float(s)`: strip whitespace, then parse the literal.
Returns `none` when `float` would raise `ValueError`. -/
def pyFloatOfString (s : String) : Option PyFloat :=
  pyFloatCore (pyStrip s).data

/-- Python's `x <= 0` on a float (`nan <= 0` is `False`). -/
def pyLe0 : PyFloat → Bool
  | .finite num _ => decide (num ≤ 0)
  | .inf => false
  | .neginf => true
  | .nan => false

/-- Round `N / D` (with `D > 0`) to the nearest integer, ties to even. -/
def roundHalfEvenInt (N D : Int) : Int :=
  let f := N / D
  let r2 := 2 * (N - f * D)
  if r2 < D then f else if D < r2 then f + 1
  else if f % 2 = 0 then f else f + 1

/-- Python `f"{x:.2f}"` on a float.  (For finite values this rounds the
exact decimal; CPython rounds the stored double.  No claim inspects these
rendered digits — they only occur inside reply strings.) -/
def formatFixed2 : PyFloat → String
  | .finite num dexp =>
    let m := roundHalfEvenInt ((num.natAbs : Int) * 100) ((10 ^ dexp : Nat) : Int)
    (if num < 0 then "-" else "") ++ toString (m / 100) ++ "." ++
      padZeros 2 (toString (m % 100))
  | .inf => "inf"
  | .neginf => "-inf"
  | .nan => "nan"

example : pyFloatOfString "500" = some (.finite 500 0) := by decide
example : pyFloatOfString "75.25" = some (.finite 7525 2) := by decide
example : pyFloatOfString "-50" = some (.finite (-50) 0) := by decide
example : pyFloatOfString "1,000" = none := by decide
example : pyFloatOfString "1_000" = some (.finite 1000 0) := by decide
example : pyFloatOfString "1_" = none := by decide
example : pyFloatOfString "_1" = none := by decide
example : pyFloatOfString "nan" = some .nan := by decide
example : pyFloatOfString " -Infinity " = some .neginf := by decide
example : pyFloatOfString "5.e3" = some (.finite 5000 0) := by decide
example : pyFloatOfString ".5" = some (.finite 5 1) := by decide
example : pyFloatOfString "." = none := by decide
example : pyFloatOfString "not a number" = none := by decide
example : pyFloatOfString "twenty" = none := by decide
example : pyFloatOfString "" = none := by decide
example : pyFloatOfString "1e400" = some .inf := by decide
example : pyFloatOfString "1e-400" = some (.finite 0 0) := by decide
example : formatFixed2 (.finite 7525 2) = "75.25" := by decide
example : formatFixed2 (.finite 500 0) = "500.00" := by decide
example : pyLe0 .nan = false := by decide

/-! ## Conversation state (`state.py`) -/

/-- A slot value: handlers store either a stripped string or a parsed
float (`handlers.py` stores nothing else). -/
inductive SlotValue
  | str (s : String)
  | num (x : PyFloat)
deriving DecidableEq

/-- The `slots` dictionary, as an association list in insertion order. -/
abbrev Slots := List (String × SlotValue)

/-- `slots[k] = v`: replace the value at an existing key, else append. -/
def slotSet : Slots → String → SlotValue → Slots
  | [], k, v => [(k, v)]
  | (k', v') :: rest, k, v =>
    if k' = k then (k, v) :: rest else (k', v') :: slotSet rest k v

/-- `slots.get(k)`: `none` models Python's `None` default. -/
def slotGet? : Slots → String → Option SlotValue
  | [], _ => none
  | (k', v') :: rest, k => if k' = k then some v' else slotGet? rest k

/-- `slots[k]` where the program goes on to use the value as a `str`;
`none` models the `KeyError`/`TypeError` when it is absent or a float. -/
def expectStr : Option SlotValue → Option String
  | some (.str s) => some s
  | _ => none

/-- `slots[k]` where the program goes on to format the value as a number;
`none` models the `KeyError`/`TypeError` when it is absent or a string. -/
def expectNum : Option SlotValue → Option PyFloat
  | some (.num x) => some x
  | _ => none

/-- Python's `account == state.slots.get("from_account")`: a `str` compares
equal to the slot only when the slot holds an equal string
(`str == None` and `str == float` are `False`). -/
def pyEqStrSlot (a : String) : Option SlotValue → Bool
  | some (.str s) => a = s
  | _ => false

/-- `ConversationState` (`state.py`): which flow is active, the step within
it, and the collected slots. -/
structure ConversationState where
  intent_name : Option String := none
  handler_key : Option String := none
  step : Option String := none
  slots : Slots := []
deriving DecidableEq

/-- `ConversationState.reset()`: all fields to their defaults. -/
def ConversationState.reset (_ : ConversationState) : ConversationState := {}

/-- The `active` property: both `intent_name` and `handler_key` set. -/
def ConversationState.active (st : ConversationState) : Bool :=
  st.intent_name.isSome && st.handler_key.isSome

/-- The outcome of a handler invocation (`handlers.py`). -/
structure HandlerResult where
  reply : String
  completed : Bool := false
  error : Bool := false
deriving DecidableEq

/-! ## In-memory external services (`services.py`) -/

/-- One record appended by `InMemoryAccountService.open_account`. -/
structure AccountRecord where
  id : String
  full_name : String
  account_type : String
  initial_deposit : String
deriving DecidableEq

/-- One record appended by `InMemoryTransferService.transfer`. -/
structure TransferRecord where
  id : String
  from_account : String
  to_account : String
  amount : String
deriving DecidableEq

/-- One record appended by `InMemoryAdvisorMessagingService.send_message`. -/
structure MessageRecord where
  id : String
  topic : String
  message : String
deriving DecidableEq

/-- The three in-memory services from `services.py`, which the engine's
handlers commit transactions to. -/
structure Services where
  opened_accounts : List AccountRecord := []
  transfers : List TransferRecord := []
  messages : List MessageRecord := []
deriving DecidableEq

/-- `InMemoryAccountService.open_account`. -/
def Services.open_account (sv : Services) (full_name account_type : String)
    (initial_deposit : PyFloat) : String × Services :=
  let account_id := "ACC" ++ padZeros 4 (toString (sv.opened_accounts.length + 1))
  (account_id,
   { sv with opened_accounts := sv.opened_accounts ++
       [{ id := account_id, full_name := full_name, account_type := account_type,
          initial_deposit := formatFixed2 initial_deposit }] })

/-- `InMemoryTransferService.transfer`. -/
def Services.transfer (sv : Services) (from_account to_account : String)
    (amount : PyFloat) : String × Services :=
  let transfer_id := "TRX" ++ padZeros 4 (toString (sv.transfers.length + 1))
  (transfer_id,
   { sv with transfers := sv.transfers ++
       [{ id := transfer_id, from_account := from_account, to_account := to_account,
          amount := formatFixed2 amount }] })

/-- `InMemoryAdvisorMessagingService.send_message`. -/
def Services.send_message (sv : Services) (topic message : String) :
    String × Services :=
  let ticket_id := "MSG" ++ padZeros 4 (toString (sv.messages.length + 1))
  (ticket_id,
   { sv with messages := sv.messages ++
       [{ id := ticket_id, topic := topic, message := message }] })


/-! ## Flow handlers (`handlers.py`)

Each Python handler method `f(self, utterance, state)` becomes a function
taking the utterance, state and services and returning the produced
`HandlerResult` together with the updated state (and services, for the
confirmation steps, which are the only ones that touch a service).
`none` models a Python runtime error (reading a missing or wrongly-typed
slot). -/

/-- `AccountOpeningHandler`'s per-instance configuration: the normalized
account-type catalog (`__init__` lowercases and deduplicates, keeping
first occurrences, via `dict.fromkeys`). -/
structure AccountOpeningHandler where
  account_types : List String
deriving DecidableEq

/-- Order-preserving deduplication, as `tuple(dict.fromkeys(normalized))`. -/
def dedupeKeepFirst (l : List String) : List String :=
  l.foldl (fun acc x => if acc.contains x then acc else acc ++ [x]) []

/-- `AccountOpeningHandler.__init__`: lowercase then deduplicate the
configured account types. -/
def AccountOpeningHandler.make (account_types : List String) : AccountOpeningHandler :=
  ⟨dedupeKeepFirst (account_types.map pyLower)⟩

/-- The `", ".join(t.title() for t in account_types)` choice listing. -/
def AccountOpeningHandler.choices (h : AccountOpeningHandler) : String :=
  String.intercalate ", " (h.account_types.map pyTitle)

/-- `AccountOpeningHandler._prompt_for_current_step`. -/
def AccountOpeningHandler.prompt_for_current_step (h : AccountOpeningHandler)
    (st : ConversationState) : Option HandlerResult :=
  if st.step = some "collect_full_name" then
    some { reply := "Sure, let's open a new account. What's your full name?" }
  else if st.step = some "collect_account_type" then
    some { reply := "Thanks. What type of account would you like to open? Options: " ++
                    h.choices ++ "." }
  else if st.step = some "collect_initial_deposit" then
    some { reply := "Got it. How much would you like to deposit to get started?" }
  else if st.step = some "confirm_submission" then
    match expectStr (slotGet? st.slots "account_type"),
          expectStr (slotGet? st.slots "full_name"),
          expectNum (slotGet? st.slots "initial_deposit") with
    | some acct, some fn, some dep =>
      some { reply := "Open a " ++ pyTitle acct ++ " account for " ++ fn ++
                      " with an initial deposit of $" ++ formatFixed2 dep ++
                      ". Does everything look correct? (yes/no)" }
    | _, _, _ => none
  else
    some { reply := "I'm not sure what to ask next. Let's start over.",
           completed := true, error := true }

/-- `AccountOpeningHandler._handle_full_name`. -/
def AccountOpeningHandler.handle_full_name (h : AccountOpeningHandler)
    (utterance : String) (st : ConversationState) :
    Option (HandlerResult × ConversationState) :=
  let full_name := pyStrip utterance
  if full_name = "" then
    some ({ reply := "I didn't catch your name. Could you share your full name?",
            error := true }, st)
  else
    let st2 := { st with slots := slotSet st.slots "full_name" (.str full_name),
                         step := some "collect_account_type" }
    (h.prompt_for_current_step st2).map (fun r => (r, st2))

/-- `AccountOpeningHandler._handle_account_type`. -/
def AccountOpeningHandler.handle_account_type (h : AccountOpeningHandler)
    (utterance : String) (st : ConversationState) :
    Option (HandlerResult × ConversationState) :=
  let account_type := pyLower (pyStrip utterance)
  if (h.account_types.contains account_type) = false then
    some ({ reply := "I didn't recognize that account type. Please choose one of the following: " ++
                     h.choices ++ ".", error := true }, st)
  else
    let st2 := { st with slots := slotSet st.slots "account_type" (.str account_type),
                         step := some "collect_initial_deposit" }
    (h.prompt_for_current_step st2).map (fun r => (r, st2))

/-- `AccountOpeningHandler._handle_initial_deposit`. -/
def AccountOpeningHandler.handle_initial_deposit (h : AccountOpeningHandler)
    (utterance : String) (st : ConversationState) :
    Option (HandlerResult × ConversationState) :=
  let cleaned := pyStrip (removeCommas utterance)
  match pyFloatOfString cleaned with
  | none =>
    some ({ reply := "Please provide the deposit amount as a number.", error := true }, st)
  | some amount =>
    if pyLe0 amount then
      some ({ reply := "The deposit amount must be greater than zero. How much would you like to deposit?",
              error := true }, st)
    else
      let st2 := { st with slots := slotSet st.slots "initial_deposit" (.num amount),
                           step := some "confirm_submission" }
      (h.prompt_for_current_step st2).map (fun r => (r, st2))

/-- `AccountOpeningHandler._handle_confirmation` (`self` is unused there). -/
def AccountOpeningHandler.handle_confirmation (utterance : String)
    (st : ConversationState) (sv : Services) :
    Option (HandlerResult × ConversationState × Services) :=
  let normalized := pyLower (pyStrip utterance)
  if normalized = "yes" || normalized = "y" || normalized = "confirm" then
    match expectStr (slotGet? st.slots "full_name"),
          expectStr (slotGet? st.slots "account_type"),
          expectNum (slotGet? st.slots "initial_deposit") with
    | some fn, some acct, some dep =>
      let (account_id, sv2) := sv.open_account fn acct dep
      some ({ reply := "All set! Your new account (" ++ account_id ++
                       ") is ready. Is there anything else I can help you with?",
              completed := true }, st, sv2)
    | _, _, _ => none
  else if normalized = "no" || normalized = "n" || normalized = "cancel" then
    some ({ reply := "No problem, I won't submit that application. Let me know if you need anything else.",
            completed := true }, st, sv)
  else
    some ({ reply := "Please reply with yes or no so I know whether to submit the application.",
            error := true }, st, sv)

/-- `AccountOpeningHandler.handle`: dispatch on `state.step`. -/
def AccountOpeningHandler.handle (h : AccountOpeningHandler) (utterance : String)
    (st : ConversationState) (sv : Services) :
    Option (HandlerResult × ConversationState × Services) :=
  if st.step = some "collect_full_name" then
    (h.handle_full_name utterance st).map (fun p => (p.1, p.2, sv))
  else if st.step = some "collect_account_type" then
    (h.handle_account_type utterance st).map (fun p => (p.1, p.2, sv))
  else if st.step = some "collect_initial_deposit" then
    (h.handle_initial_deposit utterance st).map (fun p => (p.1, p.2, sv))
  else if st.step = some "confirm_submission" then
    AccountOpeningHandler.handle_confirmation utterance st sv
  else
    some ({ reply := "Let's restart that account application.",
            completed := true, error := true }, st, sv)

/-- `MoneyTransferHandler._prompt_for_current_step`. -/
def MoneyTransferHandler.prompt_for_current_step (st : ConversationState) :
    Option HandlerResult :=
  if st.step = some "collect_from_account" then
    some { reply := "Sure thing. Which account should the money come from?" }
  else if st.step = some "collect_to_account" then
    some { reply := "Thanks. What account are we sending the funds to?" }
  else if st.step = some "collect_amount" then
    some { reply := "How much money should I transfer?" }
  else if st.step = some "confirm_transfer" then
    match expectNum (slotGet? st.slots "amount"),
          expectStr (slotGet? st.slots "from_account"),
          expectStr (slotGet? st.slots "to_account") with
    | some amt, some fromAcc, some toAcc =>
      some { reply := "Transfer $" ++ formatFixed2 amt ++ " from " ++ fromAcc ++
                      " to " ++ toAcc ++ ". Does that look right? (yes/no)" }
    | _, _, _ => none
  else
    some { reply := "I'm not sure how to proceed with that transfer. Let's start again.",
           completed := true, error := true }

/-- `MoneyTransferHandler._handle_from_account`. -/
def MoneyTransferHandler.handle_from_account (utterance : String)
    (st : ConversationState) : Option (HandlerResult × ConversationState) :=
  let account := pyStrip utterance
  if account = "" then
    some ({ reply := "I need the account number to continue. Which account should we use?",
            error := true }, st)
  else
    let st2 := { st with slots := slotSet st.slots "from_account" (.str account),
                         step := some "collect_to_account" }
    (MoneyTransferHandler.prompt_for_current_step st2).map (fun r => (r, st2))

/-- `MoneyTransferHandler._handle_to_account`. -/
def MoneyTransferHandler.handle_to_account (utterance : String)
    (st : ConversationState) : Option (HandlerResult × ConversationState) :=
  let account := pyStrip utterance
  if account = "" then
    some ({ reply := "Please tell me where to send the money.", error := true }, st)
  else if pyEqStrSlot account (slotGet? st.slots "from_account") then
    some ({ reply := "The destination must be different from the source account. Where should the funds go?",
            error := true }, st)
  else
    let st2 := { st with slots := slotSet st.slots "to_account" (.str account),
                         step := some "collect_amount" }
    (MoneyTransferHandler.prompt_for_current_step st2).map (fun r => (r, st2))

/-- `MoneyTransferHandler._handle_amount`. -/
def MoneyTransferHandler.handle_amount (utterance : String)
    (st : ConversationState) : Option (HandlerResult × ConversationState) :=
  let cleaned := pyStrip (removeCommas utterance)
  match pyFloatOfString cleaned with
  | none =>
    some ({ reply := "I wasn't able to read that dollar amount. How much should I transfer?",
            error := true }, st)
  | some amount =>
    if pyLe0 amount then
      some ({ reply := "The transfer amount must be greater than zero. How much should I move?",
              error := true }, st)
    else
      let st2 := { st with slots := slotSet st.slots "amount" (.num amount),
                           step := some "confirm_transfer" }
      (MoneyTransferHandler.prompt_for_current_step st2).map (fun r => (r, st2))

/-- `MoneyTransferHandler._handle_confirmation`. -/
def MoneyTransferHandler.handle_confirmation (utterance : String)
    (st : ConversationState) (sv : Services) :
    Option (HandlerResult × ConversationState × Services) :=
  let normalized := pyLower (pyStrip utterance)
  if normalized = "yes" || normalized = "y" || normalized = "confirm" then
    match expectStr (slotGet? st.slots "from_account"),
          expectStr (slotGet? st.slots "to_account"),
          expectNum (slotGet? st.slots "amount") with
    | some fromAcc, some toAcc, some amt =>
      let (transfer_id, sv2) := sv.transfer fromAcc toAcc amt
      some ({ reply := "Done! Transfer " ++ transfer_id ++
                       " is complete. Anything else I can help with?",
              completed := true }, st, sv2)
    | _, _, _ => none
  else if normalized = "no" || normalized = "n" || normalized = "cancel" then
    some ({ reply := "Okay, I canceled that transfer. Let me know if you change your mind.",
            completed := true }, st, sv)
  else
    some ({ reply := "Please respond with yes or no so I can complete the transfer.",
            error := true }, st, sv)

/-- `MoneyTransferHandler.handle`: dispatch on `state.step`. -/
def MoneyTransferHandler.handle (utterance : String) (st : ConversationState)
    (sv : Services) : Option (HandlerResult × ConversationState × Services) :=
  if st.step = some "collect_from_account" then
    (MoneyTransferHandler.handle_from_account utterance st).map (fun p => (p.1, p.2, sv))
  else if st.step = some "collect_to_account" then
    (MoneyTransferHandler.handle_to_account utterance st).map (fun p => (p.1, p.2, sv))
  else if st.step = some "collect_amount" then
    (MoneyTransferHandler.handle_amount utterance st).map (fun p => (p.1, p.2, sv))
  else if st.step = some "confirm_transfer" then
    MoneyTransferHandler.handle_confirmation utterance st sv
  else
    some ({ reply := "Let's cancel that transfer for now.",
            completed := true, error := true }, st, sv)

/-- `AdvisorMessagingHandler._prompt_for_current_step`. -/
def AdvisorMessagingHandler.prompt_for_current_step (st : ConversationState) :
    Option HandlerResult :=
  if st.step = some "collect_topic" then
    some { reply := "Happy to help. What would you like to discuss with your advisor?" }
  else if st.step = some "collect_message" then
    some { reply := "Great. What details should I include in the secure message?" }
  else if st.step = some "confirm_message" then
    match expectStr (slotGet? st.slots "message"),
          expectStr (slotGet? st.slots "topic") with
    | some preview, some topic =>
      some { reply := "I'll send your advisor a message about '" ++ topic ++
                      "' saying: '" ++ preview ++ "'. Shall I send it now? (yes/no)" }
    | _, _ => none
  else
    some { reply := "I ran into an issue preparing that advisor message. Let's start over.",
           completed := true, error := true }

/-- `AdvisorMessagingHandler._handle_topic`. -/
def AdvisorMessagingHandler.handle_topic (utterance : String)
    (st : ConversationState) : Option (HandlerResult × ConversationState) :=
  let topic := pyStrip utterance
  if topic = "" then
    some ({ reply := "Please share a short topic so your advisor knows what to expect.",
            error := true }, st)
  else
    let st2 := { st with slots := slotSet st.slots "topic" (.str topic),
                         step := some "collect_message" }
    (AdvisorMessagingHandler.prompt_for_current_step st2).map (fun r => (r, st2))

/-- `AdvisorMessagingHandler._handle_message`. -/
def AdvisorMessagingHandler.handle_message (utterance : String)
    (st : ConversationState) : Option (HandlerResult × ConversationState) :=
  let message := pyStrip utterance
  if message = "" then
    some ({ reply := "I'll need a bit more detail to send a helpful message. What should I include?",
            error := true }, st)
  else
    let st2 := { st with slots := slotSet st.slots "message" (.str message),
                         step := some "confirm_message" }
    (AdvisorMessagingHandler.prompt_for_current_step st2).map (fun r => (r, st2))

/-- `AdvisorMessagingHandler._handle_confirmation`. -/
def AdvisorMessagingHandler.handle_confirmation (utterance : String)
    (st : ConversationState) (sv : Services) :
    Option (HandlerResult × ConversationState × Services) :=
  let normalized := pyLower (pyStrip utterance)
  if normalized = "yes" || normalized = "y" || normalized = "send" then
    match expectStr (slotGet? st.slots "topic"),
          expectStr (slotGet? st.slots "message") with
    | some topic, some message =>
      let (ticket_id, sv2) := sv.send_message topic message
      some ({ reply := "All right, I've delivered that message. Your advisor will reply under ticket " ++
                       ticket_id ++ ".", completed := true }, st, sv2)
    | _, _ => none
  else if normalized = "no" || normalized = "n" || normalized = "cancel" then
    some ({ reply := "Okay, I won't send that. Let me know if you want to try again.",
            completed := true }, st, sv)
  else
    some ({ reply := "Please answer yes or no so I know whether to send the message.",
            error := true }, st, sv)

/-- `AdvisorMessagingHandler.handle`: dispatch on `state.step`. -/
def AdvisorMessagingHandler.handle (utterance : String) (st : ConversationState)
    (sv : Services) : Option (HandlerResult × ConversationState × Services) :=
  if st.step = some "collect_topic" then
    (AdvisorMessagingHandler.handle_topic utterance st).map (fun p => (p.1, p.2, sv))
  else if st.step = some "collect_message" then
    (AdvisorMessagingHandler.handle_message utterance st).map (fun p => (p.1, p.2, sv))
  else if st.step = some "confirm_message" then
    AdvisorMessagingHandler.handle_confirmation utterance st sv
  else
    some ({ reply := "Let's try composing that message again later.",
            completed := true, error := true }, st, sv)

/-- A registered flow handler (the engine's `_handlers` values). -/
inductive Handler
  | account_opening (h : AccountOpeningHandler)
  | money_transfer
  | advisor_message
deriving DecidableEq

/-- The handler's class attribute `intent_name`. -/
def Handler.intentName : Handler → String
  | .account_opening _ => "account_opening"
  | .money_transfer => "money_transfer"
  | .advisor_message => "secure_advisor_message"

/-- The handler's class attribute `handler_key`. -/
def Handler.handlerKey : Handler → String
  | .account_opening _ => "account_opening"
  | .money_transfer => "money_transfer"
  | .advisor_message => "advisor_message"

/-- The handler's `first_step` property. -/
def Handler.firstStep : Handler → String
  | .account_opening _ => "collect_full_name"
  | .money_transfer => "collect_from_account"
  | .advisor_message => "collect_topic"

/-- Dispatch `_prompt_for_current_step` through the class hierarchy. -/
def Handler.prompt_for_current_step : Handler → ConversationState → Option HandlerResult
  | .account_opening h, st => h.prompt_for_current_step st
  | .money_transfer, st => MoneyTransferHandler.prompt_for_current_step st
  | .advisor_message, st => AdvisorMessagingHandler.prompt_for_current_step st

/-- `BaseHandler.start`: install the handler's identity and first step,
clear the slots, and prompt for the first step. -/
def Handler.start (h : Handler) (st : ConversationState) :
    Option (HandlerResult × ConversationState) :=
  let st2 := { st with intent_name := some h.intentName,
                       handler_key := some h.handlerKey,
                       step := some h.firstStep,
                       slots := [] }
  (h.prompt_for_current_step st2).map (fun r => (r, st2))

/-- Dispatch `handle` through the class hierarchy. -/
def Handler.handle : Handler → String → ConversationState → Services →
    Option (HandlerResult × ConversationState × Services)
  | .account_opening h, u, st, sv => h.handle u st sv
  | .money_transfer, u, st, sv => MoneyTransferHandler.handle u st sv
  | .advisor_message, u, st, sv => AdvisorMessagingHandler.handle u st sv


/-! ## Intent router (`router.py`, `configuration.py`) -/

/-- An intent definition as loaded from configuration
(`configuration.py`; entity values keep their catalog order). -/
structure IntentConfig where
  name : String
  handler : String
  keywords : List String
  entities : List (String × List String)
deriving DecidableEq

/-- The inner keyword loop of `IntentRouter.match`: does any keyword occur
in the cleaned utterance? -/
def keywordHit (keywords : List String) (cleaned : String) : Bool :=
  keywords.any (fun keyword => strContains cleaned keyword)

/-- The outer intent loop of `IntentRouter.match`: first intent, in catalog
order, with a matching keyword. -/
def intentLoop : List IntentConfig → String → Option IntentConfig
  | [], _ => none
  | intent :: rest, cleaned =>
    if keywordHit intent.keywords cleaned then some intent
    else intentLoop rest cleaned

/-- `IntentRouter.match` (named `matchIntent` here, `match` being reserved
in Lean): `None` for a falsy (empty) utterance, else the first intent with
a keyword occurring in the lowercased utterance.  A pure function — the
router holds no mutable state beyond its catalog. -/
def matchIntent (intents : List IntentConfig) (utterance : String) :
    Option IntentConfig :=
  if utterance = "" then none
  else intentLoop intents (pyLower utterance)

/-! ## Engine (`engine.py`) -/

/-- `ChatbotEngine.cancel_keywords`. -/
def cancel_keywords : List String :=
  ["cancel", "stop", "start over", "nevermind", "never mind"]

/-- The engine's configuration: its loaded intent catalog (the services
live in the explicit `Services` value). -/
structure ChatbotEngine where
  intents : List IntentConfig
deriving DecidableEq

/-- The account-type scan in `ChatbotEngine._build_handlers`: entity values
of the first `account_opening` intent, defaulting to
`("checking", "savings")` when empty or absent. -/
def buildAccountTypes (intents : List IntentConfig) : List String :=
  let fromCatalog :=
    match intents.find? (fun intent => intent.handler = "account_opening") with
    | some intent =>
      match intent.entities.find? (fun p => p.1 = "account_type") with
      | some p => p.2
      | none => []
    | none => []
  if fromCatalog = [] then ["checking", "savings"] else fromCatalog

/-- `self._handlers.get(key)`: the fixed three-entry handler registry built
by `_build_handlers`. -/
def ChatbotEngine.handlersGet (eng : ChatbotEngine) (key : String) : Option Handler :=
  if key = "account_opening" then
    some (.account_opening (AccountOpeningHandler.make (buildAccountTypes eng.intents)))
  else if key = "money_transfer" then some .money_transfer
  else if key = "advisor_message" then some .advisor_message
  else none

/-- A raised exception escaping `handle_message`: the configuration error
`HandlerNotFoundError`, or a runtime error from a corrupted state
(modelled by `Option` failure inside the handlers). -/
inductive EngineError
  | handlerNotFound (key : String)
  | runtimeError
deriving DecidableEq

/-- `ChatbotEngine._maybe_reroute`: if the utterance matches an intent whose
handler key differs from the active one, reset and start that handler
(resetting again if it immediately completes), returning its reply. -/
def ChatbotEngine.maybe_reroute (eng : ChatbotEngine) (st : ConversationState)
    (utterance : String) : Except EngineError (Option (String × ConversationState)) :=
  match matchIntent eng.intents utterance with
  | some intent =>
    if some intent.handler ≠ st.handler_key then
      match eng.handlersGet intent.handler with
      | none => .error (.handlerNotFound intent.handler)
      | some handler =>
        match handler.start st.reset with
        | none => .error .runtimeError
        | some (result, st2) =>
          .ok (some (result.reply, if result.completed then st2.reset else st2))
    else .ok none
  | none => .ok none

/-- `ChatbotEngine._route_to_handler`: start a matched flow when idle, else
hand the utterance to the active flow's handler. -/
def ChatbotEngine.route_to_handler (eng : ChatbotEngine) (st : ConversationState)
    (sv : Services) (utterance : String) :
    Except EngineError (HandlerResult × ConversationState × Services) :=
  if st.active = false then
    match matchIntent eng.intents utterance with
    | none =>
      .ok ({ reply := "I'm not sure how to help with that just yet, but I can open accounts, transfer funds, or message your advisor.",
             error := true }, st, sv)
    | some intent =>
      match eng.handlersGet intent.handler with
      | none => .error (.handlerNotFound intent.handler)
      | some handler =>
        match handler.start st with
        | none => .error .runtimeError
        | some (result, st2) => .ok (result, st2, sv)
  else
    match eng.handlersGet (st.handler_key.getD "") with
    | none => .error (.handlerNotFound (st.handler_key.getD ""))
    | some handler =>
      match handler.handle utterance st sv with
      | none => .error .runtimeError
      | some (result, st2, sv2) => .ok (result, st2, sv2)

/-- `ChatbotEngine.handle_message`: trim; empty prompt; cancel phrases;
reroute check while a flow is active; dispatch; reset on completion;
return the reply. -/
def ChatbotEngine.handle_message (eng : ChatbotEngine) (st : ConversationState)
    (sv : Services) (utterance : String) :
    Except EngineError (String × ConversationState × Services) :=
  let normalized := pyStrip utterance
  if normalized = "" then
    .ok ("Could you share more detail so I can help?", st, sv)
  else if cancel_keywords.contains (pyLower normalized) then
    .ok ("Okay, I've canceled the current request. How else can I help?", st.reset, sv)
  else
    match (if st.active then eng.maybe_reroute st utterance else .ok none) with
    | .error e => .error e
    | .ok (some (reply, st2)) => .ok (reply, st2, sv)
    | .ok none =>
      match eng.route_to_handler st sv utterance with
      | .error e => .error e
      | .ok (result, st2, sv2) =>
        .ok (result.reply, if result.completed then st2.reset else st2, sv2)


/-! ## End-to-end dialogue checks

These replay the scenarios of `tests/test_chatbot.py` against the model
(with a small concrete intent catalog, the real `intents.json` not being
part of the core sources). -/

deriving instance DecidableEq for Except

/-- A concrete engine for the dialogue checks below. -/
def demoEngine : ChatbotEngine :=
  ⟨[{ name := "account_opening", handler := "account_opening",
      keywords := ["open"], entities := [("account_type", ["checking", "savings"])] },
    { name := "money_transfer", handler := "money_transfer",
      keywords := ["transfer"], entities := [] },
    { name := "secure_advisor_message", handler := "advisor_message",
      keywords := ["advisor", "message my advisor", "contact advisor"], entities := [] }]⟩

/-- Feed one utterance into a running dialogue. -/
def demoTurn (acc : Except EngineError (String × ConversationState × Services))
    (u : String) : Except EngineError (String × ConversationState × Services) :=
  match acc with
  | .ok (_, st, sv) => demoEngine.handle_message st sv u
  | e => e

/-- Run a whole dialogue from the initial state. -/
def runDialogue (us : List String) : Except EngineError (String × ConversationState × Services) :=
  us.foldl demoTurn (.ok ("", {}, {}))

example :
    runDialogue ["I want to open a new account", "Alice Johnson", "checking", "500", "yes"] =
      .ok ("All set! Your new account (ACC0001) is ready. Is there anything else I can help you with?",
           {},
           { opened_accounts := [{ id := "ACC0001", full_name := "Alice Johnson",
                                   account_type := "checking", initial_deposit := "500.00" }] }) := by
  decide

example :
    runDialogue ["Can you transfer money for me?", "CHK-001", "SAV-002", "75.25", "yes"] =
      .ok ("Done! Transfer TRX0001 is complete. Anything else I can help with?",
           {},
           { transfers := [{ id := "TRX0001", from_account := "CHK-001",
                             to_account := "SAV-002", amount := "75.25" }] }) := by
  decide

example :
    runDialogue ["contact advisor", "College savings", "How should I rebalance my accounts?", "no"] =
      .ok ("Okay, I won't send that. Let me know if you want to try again.", {}, {}) := by
  decide

example :
    (runDialogue ["open account", "Alex Smith", "investment"]).map
        (fun out => (out.1, out.2.1.step)) =
      .ok ("I didn't recognize that account type. Please choose one of the following: Checking, Savings.",
           some "collect_account_type") := by
  decide

example :
    (runDialogue ["transfer money", "CHK-001", "CHK-002", "-50"]).map
        (fun out => (out.1, out.2.1.step)) =
      .ok ("The transfer amount must be greater than zero. How much should I move?",
           some "collect_amount") := by
  decide

example :
    runDialogue ["open account", "Jordan Doe", "cancel"] =
      .ok ("Okay, I've canceled the current request. How else can I help?", {}, {}) := by
  decide

example :
    (runDialogue ["open account", "Jordan Doe", "transfer money"]).map
        (fun out => (out.1, out.2.1.handler_key, out.2.1.slots)) =
      .ok ("Sure thing. Which account should the money come from?",
           some "money_transfer", []) := by
  decide


/-! ## Helper lemmas -/

theorem slotGet?_slotSet_self (s : Slots) (k : String) (v : SlotValue) :
    slotGet? (slotSet s k v) k = some v := by
  induction s with
  | nil => simp [slotSet, slotGet?]
  | cons p rest ih =>
    by_cases h : p.1 = k
    · simp [slotSet, slotGet?, h]
    · simp [slotSet, slotGet?, h, ih]

theorem slotGet?_slotSet_ne (s : Slots) (k k' : String) (v : SlotValue)
    (h : k' ≠ k) : slotGet? (slotSet s k v) k' = slotGet? s k' := by
  have h2 : ¬ (k = k') := fun he => h he.symm
  induction s with
  | nil => simp [slotSet, slotGet?, h2]
  | cons p rest ih =>
    by_cases hp : p.1 = k
    · simp [slotSet, slotGet?, hp, h2]
    · simp [slotSet, slotGet?, hp, ih]

/-- The reply of each handler's first-step prompt. -/
def startPrompt : Handler → String
  | .account_opening _ => "Sure, let's open a new account. What's your full name?"
  | .money_transfer => "Sure thing. Which account should the money come from?"
  | .advisor_message => "Happy to help. What would you like to discuss with your advisor?"

/-- `start` always succeeds, installs the handler's identity and first step
on a cleared slot store, and prompts for the first step. -/
theorem Handler.start_eq (h : Handler) (st : ConversationState) :
    h.start st = some ({ reply := startPrompt h },
      { intent_name := some h.intentName, handler_key := some h.handlerKey,
        step := some h.firstStep, slots := [] }) := by
  cases h <;> rfl

/-- If every router match agrees with the active handler key, the reroute
check falls through. -/
theorem maybe_reroute_none (eng : ChatbotEngine) (st : ConversationState)
    (u : String)
    (h : ∀ i, matchIntent eng.intents u = some i → some i.handler = st.handler_key) :
    eng.maybe_reroute st u = .ok none := by
  unfold ChatbotEngine.maybe_reroute
  cases hm : matchIntent eng.intents u with
  | none => rfl
  | some intent => simp [h intent hm]

/-- A non-empty, non-cancelling turn on an active flow that the reroute
check falls through goes to `_route_to_handler` and resets on completion. -/
theorem handle_message_active (eng : ChatbotEngine) (st : ConversationState)
    (sv : Services) (u : String)
    (hne : pyStrip u ≠ "")
    (hcancel : cancel_keywords.contains (pyLower (pyStrip u)) = false)
    (hactive : st.active = true)
    (hnoreroute : eng.maybe_reroute st u = .ok none) :
    eng.handle_message st sv u =
      match eng.route_to_handler st sv u with
      | .error e => .error e
      | .ok (result, st2, sv2) =>
        .ok (result.reply, if result.completed then st2.reset else st2, sv2) := by
  unfold ChatbotEngine.handle_message
  simp only [hne, hcancel, hactive, hnoreroute, if_true, if_false, if_neg hne,
    Bool.false_eq_true, ite_false, ite_true]


/-- The engine's cancellation acknowledgment reply. -/
def cancelAck : String := "Okay, I've canceled the current request. How else can I help?"

/-- The cancel branch of `handle_message`: reset and acknowledge. -/
theorem handle_message_cancel (eng : ChatbotEngine) (st : ConversationState)
    (sv : Services) (u : String)
    (h : cancel_keywords.contains (pyLower (pyStrip u)) = true) :
    eng.handle_message st sv u =
      .ok (cancelAck,
           { intent_name := none, handler_key := none, step := none, slots := [] }, sv) := by
  have hne : pyStrip u ≠ "" := by
    intro he
    rw [he] at h
    have h0 : cancel_keywords.contains (pyLower "") = false := by decide
    rw [h0] at h
    exact Bool.false_ne_true h
  have hmem : pyLower (pyStrip u) ∈ cancel_keywords := by simpa using h
  unfold ChatbotEngine.handle_message
  simp [hne, hmem, ConversationState.reset, cancelAck]

/-! ## The claims -/

/-- Claim C8: for every flow handler and every prior conversation state
(including states mid-way through another flow, with arbitrary slots),
`start` sets `state.intent_name` and `state.handler_key` to that handler's
identity, sets `state.step` to that flow's first step, clears all prior
slots, and returns the prompt for the first step (a plain, non-error,
non-completed result). -/
theorem claim_start_resets_and_prompts (h : Handler) (st : ConversationState) :
    h.start st = some
      ({ reply := startPrompt h, completed := false, error := false },
       { intent_name := some h.intentName, handler_key := some h.handlerKey,
         step := some h.firstStep, slots := [] }) :=
  Handler.start_eq h st

/-- Claim C4: for every conversation state (any flow, any step, or no
active flow) and every utterance whose trimmed form case-insensitively
equals one of the five cancel phrases, `handle_message` resets the state to
its cleared defaults and returns the cancellation acknowledgment reply. -/
theorem claim_cancel_phrase_resets (eng : ChatbotEngine) (st : ConversationState)
    (sv : Services) (u : String)
    (h : cancel_keywords.contains (pyLower (pyStrip u)) = true) :
    eng.handle_message st sv u =
      .ok (cancelAck,
           { intent_name := none, handler_key := none, step := none, slots := [] }, sv) :=
  handle_message_cancel eng st sv u h

/-- Witness for C4: the phrase `" Start Over "` (mixed case, padded), sent
mid-flow, resets the state and acknowledges. -/
theorem claim_cancel_phrase_resets_witness :
    (⟨[]⟩ : ChatbotEngine).handle_message
        { intent_name := some "money_transfer", handler_key := some "money_transfer",
          step := some "collect_amount", slots := [("from_account", .str "CHK-001")] }
        {} " Start Over " =
      .ok (cancelAck,
           { intent_name := none, handler_key := none, step := none, slots := [] }, {}) :=
  claim_cancel_phrase_resets _ _ _ _ (by decide)

/-- Claim C10: an utterance whose trimmed lowercased form is `"cancel"` is
intercepted by the engine's cancel check before any handler dispatch: the
user receives the engine's generic cancellation acknowledgment (never a
handler's decline reply, although the handlers' negative-confirmation sets
also list `"cancel"`), the state is reset, and the services are untouched
(`sv` is returned unchanged — no External Service is called). -/
theorem claim_cancel_intercepted_before_handler (eng : ChatbotEngine)
    (st : ConversationState) (sv : Services) (u : String)
    (h : pyLower (pyStrip u) = "cancel") :
    eng.handle_message st sv u =
      .ok (cancelAck,
           { intent_name := none, handler_key := none, step := none, slots := [] }, sv)
    ∧ (∀ r out, AccountOpeningHandler.handle_confirmation u st sv = some (r, out) →
        r.reply ≠ cancelAck)
    ∧ (∀ r out, MoneyTransferHandler.handle_confirmation u st sv = some (r, out) →
        r.reply ≠ cancelAck)
    ∧ (∀ r out, AdvisorMessagingHandler.handle_confirmation u st sv = some (r, out) →
        r.reply ≠ cancelAck) := by
  refine ⟨handle_message_cancel eng st sv u (by rw [h]; decide), ?_, ?_, ?_⟩
  · intro r out hc
    unfold AccountOpeningHandler.handle_confirmation at hc
    rw [h] at hc
    simp at hc
    rw [← hc.1]
    decide
  · intro r out hc
    unfold MoneyTransferHandler.handle_confirmation at hc
    rw [h] at hc
    simp at hc
    rw [← hc.1]
    decide
  · intro r out hc
    unfold AdvisorMessagingHandler.handle_confirmation at hc
    rw [h] at hc
    simp at hc
    rw [← hc.1]
    decide

/-- Witness for C10: `"CANCEL "` at the money-transfer confirm step is
answered by the engine's acknowledgment, not the handler's decline. -/
theorem claim_cancel_intercepted_before_handler_witness :
    (⟨[]⟩ : ChatbotEngine).handle_message
        { intent_name := some "money_transfer", handler_key := some "money_transfer",
          step := some "confirm_transfer",
          slots := [("from_account", .str "CHK-001"), ("to_account", .str "SAV-002"),
                    ("amount", .num (.finite 7525 2))] }
        {} "CANCEL " =
      .ok (cancelAck,
           { intent_name := none, handler_key := none, step := none, slots := [] }, {}) :=
  (claim_cancel_intercepted_before_handler _ _ _ _ (by decide)).1


/-- Claim C7: in the Money Transfer flow at the `collect_to_account` step,
for every already-collected `from_account` value, a `to_account` input equal
to it (after trimming — string equality, so independent of casing or
content) is rejected with an `error=true` result and the dedicated error
reply, and the step does not advance (the state is unchanged). -/
theorem claim_to_account_equal_rejected (u f : String) (st : ConversationState)
    (sv : Services)
    (hstep : st.step = some "collect_to_account")
    (hfrom : slotGet? st.slots "from_account" = some (.str f))
    (heq : pyStrip u = f) (hne : f ≠ "") :
    Handler.handle .money_transfer u st sv =
      some ({ reply := "The destination must be different from the source account. Where should the funds go?",
              completed := false, error := true }, st, sv) := by
  unfold Handler.handle MoneyTransferHandler.handle MoneyTransferHandler.handle_to_account
  simp [hstep, heq, hne, hfrom, pyEqStrSlot]

/-- Witness for C7: sending the funds back to `"CHK-001"` is rejected and
the flow stays at `collect_to_account`. -/
theorem claim_to_account_equal_rejected_witness :
    Handler.handle .money_transfer " CHK-001 "
      { intent_name := some "money_transfer", handler_key := some "money_transfer",
        step := some "collect_to_account",
        slots := [("from_account", .str "CHK-001")] } {} =
      some ({ reply := "The destination must be different from the source account. Where should the funds go?",
              completed := false, error := true },
            { intent_name := some "money_transfer", handler_key := some "money_transfer",
              step := some "collect_to_account",
              slots := [("from_account", .str "CHK-001")] }, {}) :=
  claim_to_account_equal_rejected _ "CHK-001" _ _ (by decide) (by decide) (by decide) (by decide)

/-- Claim C1: for every flow handler whose state is at its confirm step
(with the flow's collected slots present), an utterance whose trimmed
lowercased form is `"yes"`, `"y"`, or `"confirm"` (for Advisor Messaging,
the handler-specific synonym `"send"`) makes the handler commit the
transaction through its External Service — the corresponding service log
grows by exactly the committed record — and return a success reply with
`completed=true`. -/
theorem claim_confirm_affirmative_commits
    (cfg : AccountOpeningHandler)
    (u1 u2 u3 : String) (st1 st2 st3 : ConversationState) (sv1 sv2 sv3 : Services)
    (fn acct : String) (dep : PyFloat)
    (fromA toA : String) (amt : PyFloat)
    (topic msg : String)
    (haff1 : pyLower (pyStrip u1) = "yes" ∨ pyLower (pyStrip u1) = "y" ∨
             pyLower (pyStrip u1) = "confirm")
    (hstep1 : st1.step = some "confirm_submission")
    (hfn : slotGet? st1.slots "full_name" = some (.str fn))
    (hacct : slotGet? st1.slots "account_type" = some (.str acct))
    (hdep : slotGet? st1.slots "initial_deposit" = some (.num dep))
    (haff2 : pyLower (pyStrip u2) = "yes" ∨ pyLower (pyStrip u2) = "y" ∨
             pyLower (pyStrip u2) = "confirm")
    (hstep2 : st2.step = some "confirm_transfer")
    (hfrom : slotGet? st2.slots "from_account" = some (.str fromA))
    (hto : slotGet? st2.slots "to_account" = some (.str toA))
    (hamt : slotGet? st2.slots "amount" = some (.num amt))
    (haff3 : pyLower (pyStrip u3) = "yes" ∨ pyLower (pyStrip u3) = "y" ∨
             pyLower (pyStrip u3) = "send")
    (hstep3 : st3.step = some "confirm_message")
    (htopic : slotGet? st3.slots "topic" = some (.str topic))
    (hmsg : slotGet? st3.slots "message" = some (.str msg)) :
    Handler.handle (.account_opening cfg) u1 st1 sv1 =
      some ({ reply := "All set! Your new account (" ++
                ("ACC" ++ padZeros 4 (toString (sv1.opened_accounts.length + 1))) ++
                ") is ready. Is there anything else I can help you with?",
              completed := true, error := false },
            st1,
            { sv1 with opened_accounts := sv1.opened_accounts ++
                [{ id := "ACC" ++ padZeros 4 (toString (sv1.opened_accounts.length + 1)),
                   full_name := fn, account_type := acct,
                   initial_deposit := formatFixed2 dep }] })
  ∧ Handler.handle .money_transfer u2 st2 sv2 =
      some ({ reply := "Done! Transfer " ++
                ("TRX" ++ padZeros 4 (toString (sv2.transfers.length + 1))) ++
                " is complete. Anything else I can help with?",
              completed := true, error := false },
            st2,
            { sv2 with transfers := sv2.transfers ++
                [{ id := "TRX" ++ padZeros 4 (toString (sv2.transfers.length + 1)),
                   from_account := fromA, to_account := toA,
                   amount := formatFixed2 amt }] })
  ∧ Handler.handle .advisor_message u3 st3 sv3 =
      some ({ reply := "All right, I've delivered that message. Your advisor will reply under ticket " ++
                ("MSG" ++ padZeros 4 (toString (sv3.messages.length + 1))) ++ ".",
              completed := true, error := false },
            st3,
            { sv3 with messages := sv3.messages ++
                [{ id := "MSG" ++ padZeros 4 (toString (sv3.messages.length + 1)),
                   topic := topic, message := msg }] }) := by
  refine ⟨?_, ?_, ?_⟩
  · unfold Handler.handle AccountOpeningHandler.handle
      AccountOpeningHandler.handle_confirmation
    rcases haff1 with hw | hw | hw <;>
      simp [hstep1, hw, hfn, hacct, hdep, expectStr, expectNum, Services.open_account]
  · unfold Handler.handle MoneyTransferHandler.handle
      MoneyTransferHandler.handle_confirmation
    rcases haff2 with hw | hw | hw <;>
      simp [hstep2, hw, hfrom, hto, hamt, expectStr, expectNum, Services.transfer]
  · unfold Handler.handle AdvisorMessagingHandler.handle
      AdvisorMessagingHandler.handle_confirmation
    rcases haff3 with hw | hw | hw <;>
      simp [hstep3, hw, htopic, hmsg, expectStr, expectNum, Services.send_message]

/-- Witness for C1 (Account Opening part; the application discharges the
hypotheses of all three flows): `"YES "` at the confirm step opens the
account `ACC0001`. -/
theorem claim_confirm_affirmative_commits_witness :
    Handler.handle (.account_opening (AccountOpeningHandler.make ["checking", "savings"]))
        "YES "
        { intent_name := some "account_opening", handler_key := some "account_opening",
          step := some "confirm_submission",
          slots := [("full_name", .str "Alice Johnson"), ("account_type", .str "checking"),
                    ("initial_deposit", .num (.finite 500 0))] } {} =
      some ({ reply := "All set! Your new account (ACC0001) is ready. Is there anything else I can help you with?",
              completed := true, error := false },
            { intent_name := some "account_opening", handler_key := some "account_opening",
              step := some "confirm_submission",
              slots := [("full_name", .str "Alice Johnson"), ("account_type", .str "checking"),
                        ("initial_deposit", .num (.finite 500 0))] },
            { opened_accounts := [{ id := "ACC0001", full_name := "Alice Johnson",
                                    account_type := "checking", initial_deposit := "500.00" }] }) := by
  exact (claim_confirm_affirmative_commits
    (AccountOpeningHandler.make ["checking", "savings"])
    "YES " "confirm" "Send"
    { intent_name := some "account_opening", handler_key := some "account_opening",
      step := some "confirm_submission",
      slots := [("full_name", .str "Alice Johnson"), ("account_type", .str "checking"),
                ("initial_deposit", .num (.finite 500 0))] }
    { intent_name := some "money_transfer", handler_key := some "money_transfer",
      step := some "confirm_transfer",
      slots := [("from_account", .str "CHK-001"), ("to_account", .str "SAV-002"),
                ("amount", .num (.finite 7525 2))] }
    { intent_name := some "secure_advisor_message", handler_key := some "advisor_message",
      step := some "confirm_message",
      slots := [("topic", .str "Retirement planning"), ("message", .str "A question.")] }
    {} {} {}
    "Alice Johnson" "checking" (.finite 500 0)
    "CHK-001" "SAV-002" (.finite 7525 2)
    "Retirement planning" "A question."
    (Or.inl (by decide)) (by decide) (by decide) (by decide) (by decide)
    (Or.inr (Or.inr (by decide))) (by decide) (by decide) (by decide) (by decide)
    (Or.inr (Or.inr (by decide))) (by decide) (by decide) (by decide)).1


/-! ## Router characterization (claim C5) -/

theorem leadsWith_iff (n h : List Char) : leadsWith n h = true ↔ n <+: h := by
  induction n generalizing h with
  | nil => simp [leadsWith]
  | cons a as ih =>
    cases h with
    | nil => simp [leadsWith, List.prefix_nil]
    | cons b bs =>
      rw [leadsWith, Bool.and_eq_true, List.cons_prefix_cons, ih]
      simp only [decide_eq_true_eq]

theorem occursIn_iff (n h : List Char) : occursIn n h = true ↔ n <:+: h := by
  induction h with
  | nil =>
    simp [occursIn, leadsWith_iff]
  | cons c rest ih =>
    rw [occursIn, Bool.or_eq_true, leadsWith_iff, ih, List.infix_cons_iff]

theorem intentLoop_eq_none (l : List IntentConfig) (c : String) :
    intentLoop l c = none ↔ ∀ i ∈ l, keywordHit i.keywords c = false := by
  induction l with
  | nil => simp [intentLoop]
  | cons a rest ih =>
    by_cases ha : keywordHit a.keywords c = true
    · simp [intentLoop, ha]
    · simp only [Bool.not_eq_true] at ha
      simp [intentLoop, ha, ih]

theorem intentLoop_eq_some (l : List IntentConfig) (c : String) (i : IntentConfig) :
    intentLoop l c = some i ↔
      ∃ pre post, l = pre ++ i :: post ∧ keywordHit i.keywords c = true ∧
        ∀ j ∈ pre, keywordHit j.keywords c = false := by
  induction l with
  | nil =>
    simp only [intentLoop]
    constructor
    · intro h; cases h
    · rintro ⟨pre, post, habs, -, -⟩
      exact absurd habs.symm (by simp)
  | cons a rest ih =>
    by_cases ha : keywordHit a.keywords c = true
    · simp only [intentLoop, ha, if_true]
      constructor
      · intro h
        cases h
        exact ⟨[], rest, rfl, ha, by simp⟩
      · rintro ⟨pre, post, hl, hi, hpre⟩
        cases pre with
        | nil =>
          simp only [List.nil_append, List.cons.injEq] at hl
          rw [hl.1]
        | cons p ps =>
          simp only [List.cons_append, List.cons.injEq] at hl
          have hp := hpre p (by simp)
          rw [← hl.1, ha] at hp
          cases hp
    · have ha' : keywordHit a.keywords c = false := by
        simpa using ha
      simp only [intentLoop, ha', Bool.false_eq_true, if_false]
      rw [ih]
      constructor
      · rintro ⟨pre, post, hl, hi, hpre⟩
        refine ⟨a :: pre, post, by rw [hl, List.cons_append], hi, ?_⟩
        intro j hj
        rcases List.mem_cons.mp hj with hj | hj
        · rw [hj]; exact ha'
        · exact hpre j hj
      · rintro ⟨pre, post, hl, hi, hpre⟩
        cases pre with
        | nil =>
          simp only [List.nil_append, List.cons.injEq] at hl
          rw [← hl.1] at hi
          rw [hi] at ha'
          cases ha'
        | cons p ps =>
          simp only [List.cons_append, List.cons.injEq] at hl
          refine ⟨ps, post, hl.2, hi, ?_⟩
          intro j hj
          exact hpre j (List.mem_cons_of_mem p hj)

/-- Claim C5 counterexample: the claim says `match` returns null for every
whitespace-only utterance, over every intent catalog; but the code's falsy
check only catches the empty string, so a catalog whose keyword is the
single space matches the whitespace-only utterance `" "`. -/
theorem claim_router_whitespace_counterexample :
    pyStrip " " = "" ∧ " " ≠ "" ∧
    matchIntent [{ name := "smalltalk", handler := "advisor_message",
                   keywords := [" "], entities := [] }] " " =
      some { name := "smalltalk", handler := "advisor_message",
             keywords := [" "], entities := [] } :=
  ⟨by decide, by decide, by decide⟩

/-- Claim C5 (amended): `IntentRouter.match` returns null when the
utterance is the empty string (not for all whitespace-only utterances);
otherwise it returns the first intent in catalog order having any keyword
that is a substring of the lowercased utterance, and null when no intent
has such a keyword.  It is a pure function of the catalog and the
utterance (it is defined as one), so it mutates no state. -/
theorem claim_router_first_match (intents : List IntentConfig) (u : String)
    (hne : u ≠ "") :
    matchIntent intents "" = none
    ∧ (∀ i, matchIntent intents u = some i ↔
        ∃ pre post, intents = pre ++ i :: post ∧
          keywordHit i.keywords (pyLower u) = true ∧
          ∀ j ∈ pre, keywordHit j.keywords (pyLower u) = false)
    ∧ (matchIntent intents u = none ↔
        ∀ i ∈ intents, keywordHit i.keywords (pyLower u) = false)
    ∧ (∀ keywords c, keywordHit keywords c = true ↔
        ∃ kw ∈ keywords, kw.data <:+: c.data) := by
  refine ⟨by simp [matchIntent], ?_, ?_, ?_⟩
  · intro i
    rw [matchIntent, if_neg hne]
    exact intentLoop_eq_some intents (pyLower u) i
  · rw [matchIntent, if_neg hne]
    exact intentLoop_eq_none intents (pyLower u)
  · intro keywords c
    simp only [keywordHit, List.any_eq_true, strContains, occursIn_iff]

/-- Witness for C5 (amended): on the catalog of the dialogue checks,
`"Can you transfer money for me?"` selects the money-transfer intent with
the keyword `"transfer"`, skipping the account-opening intent. -/
theorem claim_router_first_match_witness :
    matchIntent demoEngine.intents "" = none
    ∧ (∀ i, matchIntent demoEngine.intents "Can you transfer money for me?" = some i ↔
        ∃ pre post, demoEngine.intents = pre ++ i :: post ∧
          keywordHit i.keywords (pyLower "Can you transfer money for me?") = true ∧
          ∀ j ∈ pre, keywordHit j.keywords (pyLower "Can you transfer money for me?") = false)
    ∧ (matchIntent demoEngine.intents "Can you transfer money for me?" = none ↔
        ∀ i ∈ demoEngine.intents,
          keywordHit i.keywords (pyLower "Can you transfer money for me?") = false)
    ∧ (∀ keywords c, keywordHit keywords c = true ↔
        ∃ kw ∈ keywords, kw.data <:+: c.data) :=
  claim_router_first_match demoEngine.intents "Can you transfer money for me?" (by decide)


/-! ## Numeric validation (claim C2) -/

/-- The condition as the claim words it: after stripping thousands-separator
commas and surrounding whitespace, the input parses successfully as a
decimal number that is strictly greater than zero. -/
def specParsesPositiveDecimal (u : String) : Prop :=
  ∃ q : ℚ, (pyFloatOfString (pyStrip (removeCommas u))).bind PyFloat.val? = some q ∧ 0 < q

/-- Claim C2 counterexample: at the Money Transfer amount step the input
`"nan"` advances the step and stores the value, although `"nan"` is not a
decimal number strictly greater than zero (CPython parses it as NaN, and
`nan <= 0` is `False`, so the validation passes). -/
theorem claim_numeric_validation_nan_counterexample :
    (MoneyTransferHandler.handle "nan"
       { intent_name := some "money_transfer", handler_key := some "money_transfer",
         step := some "collect_amount",
         slots := [("from_account", .str "CHK-001"), ("to_account", .str "SAV-002")] } {}).map
        (fun out => (out.2.1.step, slotGet? out.2.1.slots "amount", out.1.error)) =
      some (some "confirm_transfer", some (.num .nan), false)
    ∧ ¬ specParsesPositiveDecimal "nan" := by
  constructor
  · decide
  · rintro ⟨q, hq, -⟩
    have hn : pyFloatOfString (pyStrip (removeCommas "nan")) = some .nan := by decide
    rw [hn] at hq
    simp [PyFloat.val?] at hq

/-- Claim C2 (amended): for the Account Opening initial-deposit step and
the Money Transfer amount step, the value is stored into `slots` and the
step advanced exactly when the utterance, after stripping
thousands-separator commas and surrounding whitespace, is accepted by
CPython's `float` conversion with a value that does not compare `<= 0`
(NaN and `+inf` are accepted and advance; a positive decimal that
underflows to zero in binary64 is rejected); any input that does not
parse, or whose value compares `<= 0`, leaves `step` and the state
unchanged and returns a `HandlerResult` with `error=true`.  The three
cases below are exhaustive, so they characterize the step's behaviour. -/
theorem claim_numeric_validation_characterization
    (cfg : AccountOpeningHandler) (u1 u2 : String)
    (st1 st2 : ConversationState) (sv1 sv2 : Services)
    (fn acct fromA toA : String)
    (hstep1 : st1.step = some "collect_initial_deposit")
    (hfn : slotGet? st1.slots "full_name" = some (.str fn))
    (hacct : slotGet? st1.slots "account_type" = some (.str acct))
    (hstep2 : st2.step = some "collect_amount")
    (hfrom : slotGet? st2.slots "from_account" = some (.str fromA))
    (hto : slotGet? st2.slots "to_account" = some (.str toA)) :
    (∀ v, pyFloatOfString (pyStrip (removeCommas u1)) = some v → pyLe0 v = false →
      Handler.handle (.account_opening cfg) u1 st1 sv1 =
        some ({ reply := "Open a " ++ pyTitle acct ++ " account for " ++ fn ++
                  " with an initial deposit of $" ++ formatFixed2 v ++
                  ". Does everything look correct? (yes/no)",
                completed := false, error := false },
              { st1 with slots := slotSet st1.slots "initial_deposit" (.num v),
                         step := some "confirm_submission" }, sv1))
    ∧ (pyFloatOfString (pyStrip (removeCommas u1)) = none →
      Handler.handle (.account_opening cfg) u1 st1 sv1 =
        some ({ reply := "Please provide the deposit amount as a number.",
                completed := false, error := true }, st1, sv1))
    ∧ (∀ v, pyFloatOfString (pyStrip (removeCommas u1)) = some v → pyLe0 v = true →
      Handler.handle (.account_opening cfg) u1 st1 sv1 =
        some ({ reply := "The deposit amount must be greater than zero. How much would you like to deposit?",
                completed := false, error := true }, st1, sv1))
    ∧ (∀ v, pyFloatOfString (pyStrip (removeCommas u2)) = some v → pyLe0 v = false →
      Handler.handle .money_transfer u2 st2 sv2 =
        some ({ reply := "Transfer $" ++ formatFixed2 v ++ " from " ++ fromA ++
                  " to " ++ toA ++ ". Does that look right? (yes/no)",
                completed := false, error := false },
              { st2 with slots := slotSet st2.slots "amount" (.num v),
                         step := some "confirm_transfer" }, sv2))
    ∧ (pyFloatOfString (pyStrip (removeCommas u2)) = none →
      Handler.handle .money_transfer u2 st2 sv2 =
        some ({ reply := "I wasn't able to read that dollar amount. How much should I transfer?",
                completed := false, error := true }, st2, sv2))
    ∧ (∀ v, pyFloatOfString (pyStrip (removeCommas u2)) = some v → pyLe0 v = true →
      Handler.handle .money_transfer u2 st2 sv2 =
        some ({ reply := "The transfer amount must be greater than zero. How much should I move?",
                completed := false, error := true }, st2, sv2)) := by
  have g1 : ∀ v : PyFloat,
      slotGet? (slotSet st1.slots "initial_deposit" (.num v)) "account_type" =
        some (.str acct) := fun v => by
    rw [slotGet?_slotSet_ne _ _ _ _ (by decide)]; exact hacct
  have g2 : ∀ v : PyFloat,
      slotGet? (slotSet st1.slots "initial_deposit" (.num v)) "full_name" =
        some (.str fn) := fun v => by
    rw [slotGet?_slotSet_ne _ _ _ _ (by decide)]; exact hfn
  have g3 : ∀ v : PyFloat,
      slotGet? (slotSet st2.slots "amount" (.num v)) "from_account" =
        some (.str fromA) := fun v => by
    rw [slotGet?_slotSet_ne _ _ _ _ (by decide)]; exact hfrom
  have g4 : ∀ v : PyFloat,
      slotGet? (slotSet st2.slots "amount" (.num v)) "to_account" =
        some (.str toA) := fun v => by
    rw [slotGet?_slotSet_ne _ _ _ _ (by decide)]; exact hto
  refine ⟨?_, ?_, ?_, ?_, ?_, ?_⟩
  · intro v hv hle
    unfold Handler.handle AccountOpeningHandler.handle
      AccountOpeningHandler.handle_initial_deposit
      AccountOpeningHandler.prompt_for_current_step
    simp [hstep1, hv, hle, slotGet?_slotSet_self, g1 v, g2 v, expectStr, expectNum]
  · intro hv
    unfold Handler.handle AccountOpeningHandler.handle
      AccountOpeningHandler.handle_initial_deposit
    simp [hstep1, hv]
  · intro v hv hle
    unfold Handler.handle AccountOpeningHandler.handle
      AccountOpeningHandler.handle_initial_deposit
    simp [hstep1, hv, hle]
  · intro v hv hle
    unfold Handler.handle MoneyTransferHandler.handle
      MoneyTransferHandler.handle_amount
      MoneyTransferHandler.prompt_for_current_step
    simp [hstep2, hv, hle, slotGet?_slotSet_self, g3 v, g4 v, expectStr, expectNum]
  · intro hv
    unfold Handler.handle MoneyTransferHandler.handle
      MoneyTransferHandler.handle_amount
    simp [hstep2, hv]
  · intro v hv hle
    unfold Handler.handle MoneyTransferHandler.handle
      MoneyTransferHandler.handle_amount
    simp [hstep2, hv, hle]

/-- Witness for C2 (amended): the deposit `" 1,500.50 "` (with a
thousands-separator comma) is parsed, stored and advances the Account
Opening flow to the confirmation summary. -/
theorem claim_numeric_validation_characterization_witness :
    Handler.handle (.account_opening (AccountOpeningHandler.make ["checking", "savings"]))
        " 1,500.50 "
        { intent_name := some "account_opening", handler_key := some "account_opening",
          step := some "collect_initial_deposit",
          slots := [("full_name", .str "Alice Johnson"), ("account_type", .str "checking")] } {} =
      some ({ reply := "Open a Checking account for Alice Johnson with an initial deposit of $1500.50. Does everything look correct? (yes/no)",
              completed := false, error := false },
            { intent_name := some "account_opening", handler_key := some "account_opening",
              step := some "confirm_submission",
              slots := [("full_name", .str "Alice Johnson"), ("account_type", .str "checking"),
                        ("initial_deposit", .num (.finite 150050 2))] }, {}) := by
  exact (claim_numeric_validation_characterization
    (AccountOpeningHandler.make ["checking", "savings"]) " 1,500.50 " "-50"
    { intent_name := some "account_opening", handler_key := some "account_opening",
      step := some "collect_initial_deposit",
      slots := [("full_name", .str "Alice Johnson"), ("account_type", .str "checking")] }
    { intent_name := some "money_transfer", handler_key := some "money_transfer",
      step := some "collect_amount",
      slots := [("from_account", .str "CHK-001"), ("to_account", .str "SAV-002")] }
    {} {} "Alice Johnson" "checking" "CHK-001" "SAV-002"
    (by decide) (by decide) (by decide) (by decide) (by decide) (by decide)).1
    (.finite 150050 2) (by decide) (by decide)


/-! ## Engine dispatch helpers -/

/-- A non-empty, non-cancelling turn on an active flow that does not
reroute is handed to the active flow's handler, and the engine resets the
state when the result is `completed`. -/
theorem handle_message_to_handler (eng : ChatbotEngine) (st : ConversationState)
    (sv : Services) (u : String) (hd : Handler) (r : HandlerResult)
    (st2 : ConversationState) (sv2 : Services)
    (hne : pyStrip u ≠ "")
    (hcancel : cancel_keywords.contains (pyLower (pyStrip u)) = false)
    (hactive : st.active = true)
    (hnoreroute : eng.maybe_reroute st u = .ok none)
    (hget : eng.handlersGet (st.handler_key.getD "") = some hd)
    (hh : hd.handle u st sv = some (r, st2, sv2)) :
    eng.handle_message st sv u =
      .ok (r.reply, if r.completed then st2.reset else st2, sv2) := by
  have hrt : eng.route_to_handler st sv u = .ok (r, st2, sv2) := by
    unfold ChatbotEngine.route_to_handler
    rw [hactive]
    simp only [Bool.true_eq_false, if_false, hget, hh]
  rw [handle_message_active eng st sv u hne hcancel hactive hnoreroute, hrt]

/-- Claim C3: while a flow is active (and the utterance is neither empty
nor a cancel phrase, which are handled earlier), a Router match on the raw
utterance whose handler key differs from the active one makes
`handle_message` reset the state — discarding all prior slots — start the
newly matched handler, and return its first-step prompt; while a Router
miss, or a match on the currently active handler key, makes the utterance
be passed to the active handler as step input instead. -/
theorem claim_reroute_on_different_intent (eng : ChatbotEngine)
    (st : ConversationState) (sv : Services) (u : String)
    (hne : pyStrip u ≠ "")
    (hcancel : cancel_keywords.contains (pyLower (pyStrip u)) = false)
    (hactive : st.active = true) :
    (∀ i h, matchIntent eng.intents u = some i →
      some i.handler ≠ st.handler_key →
      eng.handlersGet i.handler = some h →
      eng.handle_message st sv u =
        .ok (startPrompt h,
             { intent_name := some h.intentName, handler_key := some h.handlerKey,
               step := some h.firstStep, slots := [] }, sv))
    ∧ ((∀ i, matchIntent eng.intents u = some i → some i.handler = st.handler_key) →
      ∀ hd r st2 sv2, eng.handlersGet (st.handler_key.getD "") = some hd →
        hd.handle u st sv = some (r, st2, sv2) →
        eng.handle_message st sv u =
          .ok (r.reply, if r.completed then st2.reset else st2, sv2)) := by
  constructor
  · intro i h hm hdiff hget
    have hre : eng.maybe_reroute st u =
        .ok (some (startPrompt h,
          { intent_name := some h.intentName, handler_key := some h.handlerKey,
            step := some h.firstStep, slots := [] })) := by
      unfold ChatbotEngine.maybe_reroute
      rw [hm]
      simp only [if_pos hdiff, hget, Handler.start_eq, Bool.false_eq_true, if_false]
    have hnc : pyLower (pyStrip u) ∉ cancel_keywords := by
      simpa using hcancel
    unfold ChatbotEngine.handle_message
    simp [hne, hnc, hactive, hre]
  · intro hsame hd r st2 sv2 hget hh
    exact handle_message_to_handler eng st sv u hd r st2 sv2 hne hcancel hactive
      (maybe_reroute_none eng st u hsame) hget hh

/-- Witness for C3 (reroute part): `"transfer money"` mid Account-Opening
flow discards the collected name and prompts for the transfer's source
account. -/
theorem claim_reroute_on_different_intent_witness :
    demoEngine.handle_message
        { intent_name := some "account_opening", handler_key := some "account_opening",
          step := some "collect_account_type",
          slots := [("full_name", .str "Jordan Doe")] } {} "transfer money" =
      .ok ("Sure thing. Which account should the money come from?",
           { intent_name := some "money_transfer", handler_key := some "money_transfer",
             step := some "collect_from_account", slots := [] }, {}) := by
  exact (claim_reroute_on_different_intent demoEngine
    { intent_name := some "account_opening", handler_key := some "account_opening",
      step := some "collect_account_type", slots := [("full_name", .str "Jordan Doe")] }
    {} "transfer money" (by decide) (by decide) (by decide)).1
    { name := "money_transfer", handler := "money_transfer",
      keywords := ["transfer"], entities := [] }
    .money_transfer (by decide) (by decide) (by decide)


/-! ## Confirmation outcomes (claim C6) -/

/-- The confirm step of each flow. -/
def confirmStep : Handler → String
  | .account_opening _ => "confirm_submission"
  | .money_transfer => "confirm_transfer"
  | .advisor_message => "confirm_message"

/-- The handler-specific third affirmative word (`confirm`, or `send` for
Advisor Messaging). -/
def affirmSyn : Handler → String
  | .account_opening _ => "confirm"
  | .money_transfer => "confirm"
  | .advisor_message => "send"

/-- The decline reply of each flow's negative confirmation branch. -/
def declineReply : Handler → String
  | .account_opening _ => "No problem, I won't submit that application. Let me know if you need anything else."
  | .money_transfer => "Okay, I canceled that transfer. Let me know if you change your mind."
  | .advisor_message => "Okay, I won't send that. Let me know if you want to try again."

/-- The flow's collected slots are present with their expected types (true
for every state the flow itself builds up to its confirm step). -/
def confirmSlotsOk : Handler → Slots → Bool
  | .account_opening _, s =>
    (expectStr (slotGet? s "full_name")).isSome &&
    (expectStr (slotGet? s "account_type")).isSome &&
    (expectNum (slotGet? s "initial_deposit")).isSome
  | .money_transfer, s =>
    (expectStr (slotGet? s "from_account")).isSome &&
    (expectStr (slotGet? s "to_account")).isSome &&
    (expectNum (slotGet? s "amount")).isSome
  | .advisor_message, s =>
    (expectStr (slotGet? s "topic")).isSome &&
    (expectStr (slotGet? s "message")).isSome

theorem expectStr_eq_some {x : Option SlotValue} {s : String}
    (h : expectStr x = some s) : x = some (.str s) := by
  match x with
  | none => cases h
  | some (.str t) => cases h; rfl
  | some (.num _) => cases h

theorem expectNum_eq_some {x : Option SlotValue} {v : PyFloat}
    (h : expectNum x = some v) : x = some (.num v) := by
  match x with
  | none => cases h
  | some (.str _) => cases h
  | some (.num w) => cases h; rfl

theorem pyStrip_ne_empty_of_lower_eq {u w : String}
    (hw : pyLower (pyStrip u) = w) (h : w ≠ "") : pyStrip u ≠ "" := by
  intro he
  apply h
  rw [← hw, he]
  rfl

/-- Affirmative confirmation of the Account Opening flow commits. -/
theorem ao_confirm_affirm (u : String) (st : ConversationState) (sv : Services)
    (cfg : AccountOpeningHandler) (fn acct : String) (dep : PyFloat)
    (hstep : st.step = some "confirm_submission")
    (hw : pyLower (pyStrip u) = "yes" ∨ pyLower (pyStrip u) = "y" ∨
          pyLower (pyStrip u) = "confirm")
    (hfn : slotGet? st.slots "full_name" = some (.str fn))
    (hacct : slotGet? st.slots "account_type" = some (.str acct))
    (hdep : slotGet? st.slots "initial_deposit" = some (.num dep)) :
    Handler.handle (.account_opening cfg) u st sv =
      some ({ reply := "All set! Your new account (" ++ (sv.open_account fn acct dep).1 ++
                ") is ready. Is there anything else I can help you with?",
              completed := true, error := false },
            st, (sv.open_account fn acct dep).2) := by
  unfold Handler.handle AccountOpeningHandler.handle
    AccountOpeningHandler.handle_confirmation
  rcases hw with hw | hw | hw <;>
    simp [hstep, hw, hfn, hacct, hdep, expectStr, expectNum, Services.open_account]

/-- Negative confirmation of the Account Opening flow declines without
touching the services. -/
theorem ao_confirm_negative (u : String) (st : ConversationState) (sv : Services)
    (cfg : AccountOpeningHandler)
    (hstep : st.step = some "confirm_submission")
    (hw : pyLower (pyStrip u) = "no" ∨ pyLower (pyStrip u) = "n") :
    Handler.handle (.account_opening cfg) u st sv =
      some ({ reply := declineReply (.account_opening cfg), completed := true,
              error := false }, st, sv) := by
  unfold Handler.handle AccountOpeningHandler.handle
    AccountOpeningHandler.handle_confirmation
  rcases hw with hw | hw <;> simp [hstep, hw, declineReply]

/-- Affirmative confirmation of the Money Transfer flow commits. -/
theorem mt_confirm_affirm (u : String) (st : ConversationState) (sv : Services)
    (fromA toA : String) (amt : PyFloat)
    (hstep : st.step = some "confirm_transfer")
    (hw : pyLower (pyStrip u) = "yes" ∨ pyLower (pyStrip u) = "y" ∨
          pyLower (pyStrip u) = "confirm")
    (hfrom : slotGet? st.slots "from_account" = some (.str fromA))
    (hto : slotGet? st.slots "to_account" = some (.str toA))
    (hamt : slotGet? st.slots "amount" = some (.num amt)) :
    Handler.handle .money_transfer u st sv =
      some ({ reply := "Done! Transfer " ++ (sv.transfer fromA toA amt).1 ++
                " is complete. Anything else I can help with?",
              completed := true, error := false },
            st, (sv.transfer fromA toA amt).2) := by
  unfold Handler.handle MoneyTransferHandler.handle
    MoneyTransferHandler.handle_confirmation
  rcases hw with hw | hw | hw <;>
    simp [hstep, hw, hfrom, hto, hamt, expectStr, expectNum, Services.transfer]

/-- Negative confirmation of the Money Transfer flow declines without
touching the services. -/
theorem mt_confirm_negative (u : String) (st : ConversationState) (sv : Services)
    (hstep : st.step = some "confirm_transfer")
    (hw : pyLower (pyStrip u) = "no" ∨ pyLower (pyStrip u) = "n") :
    Handler.handle .money_transfer u st sv =
      some ({ reply := declineReply .money_transfer, completed := true,
              error := false }, st, sv) := by
  unfold Handler.handle MoneyTransferHandler.handle
    MoneyTransferHandler.handle_confirmation
  rcases hw with hw | hw <;> simp [hstep, hw, declineReply]

/-- Affirmative confirmation of the Advisor Messaging flow commits. -/
theorem adv_confirm_affirm (u : String) (st : ConversationState) (sv : Services)
    (topic msg : String)
    (hstep : st.step = some "confirm_message")
    (hw : pyLower (pyStrip u) = "yes" ∨ pyLower (pyStrip u) = "y" ∨
          pyLower (pyStrip u) = "send")
    (htopic : slotGet? st.slots "topic" = some (.str topic))
    (hmsg : slotGet? st.slots "message" = some (.str msg)) :
    Handler.handle .advisor_message u st sv =
      some ({ reply := "All right, I've delivered that message. Your advisor will reply under ticket " ++
                (sv.send_message topic msg).1 ++ ".",
              completed := true, error := false },
            st, (sv.send_message topic msg).2) := by
  unfold Handler.handle AdvisorMessagingHandler.handle
    AdvisorMessagingHandler.handle_confirmation
  rcases hw with hw | hw | hw <;>
    simp [hstep, hw, htopic, hmsg, expectStr, expectNum, Services.send_message]

/-- Negative confirmation of the Advisor Messaging flow declines without
touching the services. -/
theorem adv_confirm_negative (u : String) (st : ConversationState) (sv : Services)
    (hstep : st.step = some "confirm_message")
    (hw : pyLower (pyStrip u) = "no" ∨ pyLower (pyStrip u) = "n") :
    Handler.handle .advisor_message u st sv =
      some ({ reply := declineReply .advisor_message, completed := true,
              error := false }, st, sv) := by
  unfold Handler.handle AdvisorMessagingHandler.handle
    AdvisorMessagingHandler.handle_confirmation
  rcases hw with hw | hw <;> simp [hstep, hw, declineReply]

/-- Claim C6: for every flow at its confirm step (slots collected, and the
utterance not rerouting to another flow), a `handle_message` turn whose
confirmation is affirmative leaves `state.active` false; a turn whose
confirmation is negative (`"no"`, `"n"`, or — via the engine's own cancel
check — `"cancel"`) also leaves `state.active` false, and in the negative
and cancel cases the services are returned unchanged: the External Service
is never called. -/
theorem claim_confirm_turn_deactivates (eng : ChatbotEngine) (h : Handler)
    (st : ConversationState) (sv : Services) (u : String)
    (hin : st.intent_name = some h.intentName)
    (hkey : st.handler_key = some h.handlerKey)
    (hstep : st.step = some (confirmStep h))
    (hslots : confirmSlotsOk h st.slots = true)
    (hnoreroute : ∀ i, matchIntent eng.intents u = some i →
      some i.handler = st.handler_key) :
    ((pyLower (pyStrip u) = "yes" ∨ pyLower (pyStrip u) = "y" ∨
      pyLower (pyStrip u) = affirmSyn h) →
      ∃ reply sv2, eng.handle_message st sv u =
        .ok (reply, { intent_name := none, handler_key := none,
                      step := none, slots := [] }, sv2))
    ∧ ((pyLower (pyStrip u) = "no" ∨ pyLower (pyStrip u) = "n") →
      eng.handle_message st sv u =
        .ok (declineReply h, { intent_name := none, handler_key := none,
                               step := none, slots := [] }, sv))
    ∧ (pyLower (pyStrip u) = "cancel" →
      eng.handle_message st sv u =
        .ok (cancelAck, { intent_name := none, handler_key := none,
                          step := none, slots := [] }, sv))
    ∧ ({ intent_name := none, handler_key := none, step := none,
         slots := [] } : ConversationState).active = false := by
  have hactive : st.active = true := by
    rw [ConversationState.active, hin, hkey]; rfl
  have hre : eng.maybe_reroute st u = .ok none := maybe_reroute_none eng st u hnoreroute
  cases h with
  | account_opening cfg =>
    simp only [confirmSlotsOk, Bool.and_eq_true, Option.isSome_iff_exists] at hslots
    obtain ⟨⟨⟨fn, hfn⟩, acct, hacct⟩, dep, hdep⟩ := hslots
    have hfn' := expectStr_eq_some hfn
    have hacct' := expectStr_eq_some hacct
    have hdep' := expectNum_eq_some hdep
    have hget : eng.handlersGet (st.handler_key.getD "") =
        some (.account_opening (AccountOpeningHandler.make (buildAccountTypes eng.intents))) := by
      rw [hkey]; rfl
    refine ⟨?_, ?_, ?_, rfl⟩
    · intro hw
      rw [show affirmSyn (Handler.account_opening cfg) = "confirm" from rfl] at hw
      have hne : pyStrip u ≠ "" := by
        rcases hw with hw | hw | hw <;>
          exact pyStrip_ne_empty_of_lower_eq hw (by decide)
      have hcancel : cancel_keywords.contains (pyLower (pyStrip u)) = false := by
        rcases hw with hw | hw | hw <;> (rw [hw]; decide)
      have hmain := handle_message_to_handler eng st sv u _ _ st _ hne hcancel hactive
        hre hget (ao_confirm_affirm u st sv _ fn acct dep hstep hw hfn' hacct' hdep')
      simp only [ConversationState.reset] at hmain
      simp at hmain
      exact ⟨_, _, hmain⟩
    · intro hw
      have hne : pyStrip u ≠ "" := by
        rcases hw with hw | hw <;>
          exact pyStrip_ne_empty_of_lower_eq hw (by decide)
      have hcancel : cancel_keywords.contains (pyLower (pyStrip u)) = false := by
        rcases hw with hw | hw <;> (rw [hw]; decide)
      have hmain := handle_message_to_handler eng st sv u _ _ st _ hne hcancel hactive
        hre hget (ao_confirm_negative u st sv _ hstep hw)
      simpa [ConversationState.reset] using hmain
    · intro hw
      exact handle_message_cancel eng st sv u (by rw [hw]; decide)
  | money_transfer =>
    simp only [confirmSlotsOk, Bool.and_eq_true, Option.isSome_iff_exists] at hslots
    obtain ⟨⟨⟨fromA, hfrom⟩, toA, hto⟩, amt, hamt⟩ := hslots
    have hfrom' := expectStr_eq_some hfrom
    have hto' := expectStr_eq_some hto
    have hamt' := expectNum_eq_some hamt
    have hget : eng.handlersGet (st.handler_key.getD "") = some .money_transfer := by
      rw [hkey]; rfl
    refine ⟨?_, ?_, ?_, rfl⟩
    · intro hw
      rw [show affirmSyn Handler.money_transfer = "confirm" from rfl] at hw
      have hne : pyStrip u ≠ "" := by
        rcases hw with hw | hw | hw <;>
          exact pyStrip_ne_empty_of_lower_eq hw (by decide)
      have hcancel : cancel_keywords.contains (pyLower (pyStrip u)) = false := by
        rcases hw with hw | hw | hw <;> (rw [hw]; decide)
      have hmain := handle_message_to_handler eng st sv u _ _ st _ hne hcancel hactive
        hre hget (mt_confirm_affirm u st sv fromA toA amt hstep hw hfrom' hto' hamt')
      simp only [ConversationState.reset] at hmain
      simp at hmain
      exact ⟨_, _, hmain⟩
    · intro hw
      have hne : pyStrip u ≠ "" := by
        rcases hw with hw | hw <;>
          exact pyStrip_ne_empty_of_lower_eq hw (by decide)
      have hcancel : cancel_keywords.contains (pyLower (pyStrip u)) = false := by
        rcases hw with hw | hw <;> (rw [hw]; decide)
      have hmain := handle_message_to_handler eng st sv u _ _ st _ hne hcancel hactive
        hre hget (mt_confirm_negative u st sv hstep hw)
      simpa [ConversationState.reset] using hmain
    · intro hw
      exact handle_message_cancel eng st sv u (by rw [hw]; decide)
  | advisor_message =>
    simp only [confirmSlotsOk, Bool.and_eq_true, Option.isSome_iff_exists] at hslots
    obtain ⟨⟨topic, htopic⟩, msg, hmsg⟩ := hslots
    have htopic' := expectStr_eq_some htopic
    have hmsg' := expectStr_eq_some hmsg
    have hget : eng.handlersGet (st.handler_key.getD "") = some .advisor_message := by
      rw [hkey]; rfl
    refine ⟨?_, ?_, ?_, rfl⟩
    · intro hw
      rw [show affirmSyn Handler.advisor_message = "send" from rfl] at hw
      have hne : pyStrip u ≠ "" := by
        rcases hw with hw | hw | hw <;>
          exact pyStrip_ne_empty_of_lower_eq hw (by decide)
      have hcancel : cancel_keywords.contains (pyLower (pyStrip u)) = false := by
        rcases hw with hw | hw | hw <;> (rw [hw]; decide)
      have hmain := handle_message_to_handler eng st sv u _ _ st _ hne hcancel hactive
        hre hget (adv_confirm_affirm u st sv topic msg hstep hw htopic' hmsg')
      simp only [ConversationState.reset] at hmain
      simp at hmain
      exact ⟨_, _, hmain⟩
    · intro hw
      have hne : pyStrip u ≠ "" := by
        rcases hw with hw | hw <;>
          exact pyStrip_ne_empty_of_lower_eq hw (by decide)
      have hcancel : cancel_keywords.contains (pyLower (pyStrip u)) = false := by
        rcases hw with hw | hw <;> (rw [hw]; decide)
      have hmain := handle_message_to_handler eng st sv u _ _ st _ hne hcancel hactive
        hre hget (adv_confirm_negative u st sv hstep hw)
      simpa [ConversationState.reset] using hmain
    · intro hw
      exact handle_message_cancel eng st sv u (by rw [hw]; decide)

/-- Witness for C6 (negative part; the application discharges every
hypothesis): declining `" No "` at the money-transfer confirm step
deactivates the flow and leaves the services untouched. -/
theorem claim_confirm_turn_deactivates_witness :
    (⟨[]⟩ : ChatbotEngine).handle_message
        { intent_name := some "money_transfer", handler_key := some "money_transfer",
          step := some "confirm_transfer",
          slots := [("from_account", .str "CHK-001"), ("to_account", .str "SAV-002"),
                    ("amount", .num (.finite 7525 2))] } {} " No " =
      .ok (declineReply .money_transfer,
           { intent_name := none, handler_key := none, step := none, slots := [] }, {}) := by
  exact (claim_confirm_turn_deactivates ⟨[]⟩ .money_transfer
    { intent_name := some "money_transfer", handler_key := some "money_transfer",
      step := some "confirm_transfer",
      slots := [("from_account", .str "CHK-001"), ("to_account", .str "SAV-002"),
                ("amount", .num (.finite 7525 2))] } {} " No "
    (by decide) (by decide) (by decide) (by decide)
    (by
      intro i hi
      rw [show matchIntent ((⟨[]⟩ : ChatbotEngine)).intents " No " = none from by decide] at hi
      cases hi)).2.1 (Or.inl (by decide))


/-! ## The state-shape invariant (claim C9) -/

/-- The fields `intent_name`, `handler_key`, `step` are all `None` or all
set. -/
def StateInv (st : ConversationState) : Prop :=
  (st.intent_name = none ∧ st.handler_key = none ∧ st.step = none) ∨
  (st.intent_name ≠ none ∧ st.handler_key ≠ none ∧ st.step ≠ none)

theorem stateInv_empty : StateInv {} := Or.inl ⟨rfl, rfl, rfl⟩

theorem stateInv_started (h : Handler) :
    StateInv { intent_name := some h.intentName, handler_key := some h.handlerKey,
               step := some h.firstStep, slots := [] } := by
  right
  refine ⟨?_, ?_, ?_⟩ <;> simp

/-- The per-step validators return either the untouched state or a state
whose `step` was moved to another named step; this records the consequence
for the three shape fields. -/
abbrev KeepsShape (st st2 : ConversationState) : Prop :=
  st2.intent_name = st.intent_name ∧ st2.handler_key = st.handler_key ∧
    (st2.step = st.step ∨ ∃ s, st2.step = some s)

theorem map_pair_state {X : Option HandlerResult} {stU st2 : ConversationState}
    {r : HandlerResult}
    (h : X.map (fun r => (r, stU)) = some (r, st2)) : st2 = stU := by
  cases X with
  | none => cases h
  | some x =>
    simp only [Option.map_some', Option.some.injEq] at h
    cases h
    rfl

theorem ao_full_name_pres (cfg : AccountOpeningHandler) (u : String)
    (st : ConversationState) (r : HandlerResult) (st2 : ConversationState)
    (hh : cfg.handle_full_name u st = some (r, st2)) : KeepsShape st st2 := by
  simp only [AccountOpeningHandler.handle_full_name] at hh
  repeat' split at hh
  all_goals first
    | cases hh
    | (simp only [Option.some.injEq] at hh; cases hh)
    | (have h2 := map_pair_state hh; rw [h2])
  all_goals first
    | exact ⟨rfl, rfl, Or.inl rfl⟩
    | exact ⟨rfl, rfl, Or.inr ⟨_, rfl⟩⟩

theorem ao_account_type_pres (cfg : AccountOpeningHandler) (u : String)
    (st : ConversationState) (r : HandlerResult) (st2 : ConversationState)
    (hh : cfg.handle_account_type u st = some (r, st2)) : KeepsShape st st2 := by
  simp only [AccountOpeningHandler.handle_account_type] at hh
  repeat' split at hh
  all_goals first
    | cases hh
    | (simp only [Option.some.injEq] at hh; cases hh)
    | (have h2 := map_pair_state hh; rw [h2])
  all_goals first
    | exact ⟨rfl, rfl, Or.inl rfl⟩
    | exact ⟨rfl, rfl, Or.inr ⟨_, rfl⟩⟩

theorem ao_deposit_pres (cfg : AccountOpeningHandler) (u : String)
    (st : ConversationState) (r : HandlerResult) (st2 : ConversationState)
    (hh : cfg.handle_initial_deposit u st = some (r, st2)) : KeepsShape st st2 := by
  simp only [AccountOpeningHandler.handle_initial_deposit] at hh
  repeat' split at hh
  all_goals first
    | cases hh
    | (simp only [Option.some.injEq] at hh; cases hh)
    | (have h2 := map_pair_state hh; rw [h2])
  all_goals first
    | exact ⟨rfl, rfl, Or.inl rfl⟩
    | exact ⟨rfl, rfl, Or.inr ⟨_, rfl⟩⟩

theorem ao_confirm_pres (u : String) (st : ConversationState) (sv : Services)
    (r : HandlerResult) (st2 : ConversationState) (sv2 : Services)
    (hh : AccountOpeningHandler.handle_confirmation u st sv = some (r, st2, sv2)) :
    KeepsShape st st2 := by
  simp only [AccountOpeningHandler.handle_confirmation] at hh
  repeat' split at hh
  all_goals first
    | cases hh
    | (simp only [Option.some.injEq] at hh; cases hh)
  all_goals exact ⟨rfl, rfl, Or.inl rfl⟩

theorem mt_from_account_pres (u : String) (st : ConversationState)
    (r : HandlerResult) (st2 : ConversationState)
    (hh : MoneyTransferHandler.handle_from_account u st = some (r, st2)) :
    KeepsShape st st2 := by
  simp only [MoneyTransferHandler.handle_from_account] at hh
  repeat' split at hh
  all_goals first
    | cases hh
    | (simp only [Option.some.injEq] at hh; cases hh)
    | (have h2 := map_pair_state hh; rw [h2])
  all_goals first
    | exact ⟨rfl, rfl, Or.inl rfl⟩
    | exact ⟨rfl, rfl, Or.inr ⟨_, rfl⟩⟩

theorem mt_to_account_pres (u : String) (st : ConversationState)
    (r : HandlerResult) (st2 : ConversationState)
    (hh : MoneyTransferHandler.handle_to_account u st = some (r, st2)) :
    KeepsShape st st2 := by
  simp only [MoneyTransferHandler.handle_to_account] at hh
  repeat' split at hh
  all_goals first
    | cases hh
    | (simp only [Option.some.injEq] at hh; cases hh)
    | (have h2 := map_pair_state hh; rw [h2])
  all_goals first
    | exact ⟨rfl, rfl, Or.inl rfl⟩
    | exact ⟨rfl, rfl, Or.inr ⟨_, rfl⟩⟩

theorem mt_amount_pres (u : String) (st : ConversationState)
    (r : HandlerResult) (st2 : ConversationState)
    (hh : MoneyTransferHandler.handle_amount u st = some (r, st2)) :
    KeepsShape st st2 := by
  simp only [MoneyTransferHandler.handle_amount] at hh
  repeat' split at hh
  all_goals first
    | cases hh
    | (simp only [Option.some.injEq] at hh; cases hh)
    | (have h2 := map_pair_state hh; rw [h2])
  all_goals first
    | exact ⟨rfl, rfl, Or.inl rfl⟩
    | exact ⟨rfl, rfl, Or.inr ⟨_, rfl⟩⟩

theorem mt_confirm_pres (u : String) (st : ConversationState) (sv : Services)
    (r : HandlerResult) (st2 : ConversationState) (sv2 : Services)
    (hh : MoneyTransferHandler.handle_confirmation u st sv = some (r, st2, sv2)) :
    KeepsShape st st2 := by
  simp only [MoneyTransferHandler.handle_confirmation] at hh
  repeat' split at hh
  all_goals first
    | cases hh
    | (simp only [Option.some.injEq] at hh; cases hh)
  all_goals exact ⟨rfl, rfl, Or.inl rfl⟩

theorem adv_topic_pres (u : String) (st : ConversationState)
    (r : HandlerResult) (st2 : ConversationState)
    (hh : AdvisorMessagingHandler.handle_topic u st = some (r, st2)) :
    KeepsShape st st2 := by
  simp only [AdvisorMessagingHandler.handle_topic] at hh
  repeat' split at hh
  all_goals first
    | cases hh
    | (simp only [Option.some.injEq] at hh; cases hh)
    | (have h2 := map_pair_state hh; rw [h2])
  all_goals first
    | exact ⟨rfl, rfl, Or.inl rfl⟩
    | exact ⟨rfl, rfl, Or.inr ⟨_, rfl⟩⟩

theorem adv_message_pres (u : String) (st : ConversationState)
    (r : HandlerResult) (st2 : ConversationState)
    (hh : AdvisorMessagingHandler.handle_message u st = some (r, st2)) :
    KeepsShape st st2 := by
  simp only [AdvisorMessagingHandler.handle_message] at hh
  repeat' split at hh
  all_goals first
    | cases hh
    | (simp only [Option.some.injEq] at hh; cases hh)
    | (have h2 := map_pair_state hh; rw [h2])
  all_goals first
    | exact ⟨rfl, rfl, Or.inl rfl⟩
    | exact ⟨rfl, rfl, Or.inr ⟨_, rfl⟩⟩

theorem adv_confirm_pres (u : String) (st : ConversationState) (sv : Services)
    (r : HandlerResult) (st2 : ConversationState) (sv2 : Services)
    (hh : AdvisorMessagingHandler.handle_confirmation u st sv = some (r, st2, sv2)) :
    KeepsShape st st2 := by
  simp only [AdvisorMessagingHandler.handle_confirmation] at hh
  repeat' split at hh
  all_goals first
    | cases hh
    | (simp only [Option.some.injEq] at hh; cases hh)
  all_goals exact ⟨rfl, rfl, Or.inl rfl⟩

/-- A handler turn never touches `intent_name`/`handler_key` and never
clears `step` (it only keeps it or moves it to another named step). -/
theorem handle_preserves_ids (h : Handler) (u : String) (st : ConversationState)
    (sv : Services) (r : HandlerResult) (st2 : ConversationState) (sv2 : Services)
    (hh : h.handle u st sv = some (r, st2, sv2)) : KeepsShape st st2 := by
  cases h with
  | account_opening cfg =>
    simp only [Handler.handle] at hh
    unfold AccountOpeningHandler.handle at hh
    split at hh
    · rcases Option.map_eq_some'.mp hh with ⟨⟨pr, pst⟩, hX, hp⟩
      simp only [Prod.mk.injEq] at hp
      rw [← hp.2.1]
      exact ao_full_name_pres cfg u st pr pst hX
    · split at hh
      · rcases Option.map_eq_some'.mp hh with ⟨⟨pr, pst⟩, hX, hp⟩
        simp only [Prod.mk.injEq] at hp
        rw [← hp.2.1]
        exact ao_account_type_pres cfg u st pr pst hX
      · split at hh
        · rcases Option.map_eq_some'.mp hh with ⟨⟨pr, pst⟩, hX, hp⟩
          simp only [Prod.mk.injEq] at hp
          rw [← hp.2.1]
          exact ao_deposit_pres cfg u st pr pst hX
        · split at hh
          · exact ao_confirm_pres u st sv r st2 sv2 hh
          · simp only [Option.some.injEq] at hh
            cases hh
            exact ⟨rfl, rfl, Or.inl rfl⟩
  | money_transfer =>
    simp only [Handler.handle] at hh
    unfold MoneyTransferHandler.handle at hh
    split at hh
    · rcases Option.map_eq_some'.mp hh with ⟨⟨pr, pst⟩, hX, hp⟩
      simp only [Prod.mk.injEq] at hp
      rw [← hp.2.1]
      exact mt_from_account_pres u st pr pst hX
    · split at hh
      · rcases Option.map_eq_some'.mp hh with ⟨⟨pr, pst⟩, hX, hp⟩
        simp only [Prod.mk.injEq] at hp
        rw [← hp.2.1]
        exact mt_to_account_pres u st pr pst hX
      · split at hh
        · rcases Option.map_eq_some'.mp hh with ⟨⟨pr, pst⟩, hX, hp⟩
          simp only [Prod.mk.injEq] at hp
          rw [← hp.2.1]
          exact mt_amount_pres u st pr pst hX
        · split at hh
          · exact mt_confirm_pres u st sv r st2 sv2 hh
          · simp only [Option.some.injEq] at hh
            cases hh
            exact ⟨rfl, rfl, Or.inl rfl⟩
  | advisor_message =>
    simp only [Handler.handle] at hh
    unfold AdvisorMessagingHandler.handle at hh
    split at hh
    · rcases Option.map_eq_some'.mp hh with ⟨⟨pr, pst⟩, hX, hp⟩
      simp only [Prod.mk.injEq] at hp
      rw [← hp.2.1]
      exact adv_topic_pres u st pr pst hX
    · split at hh
      · rcases Option.map_eq_some'.mp hh with ⟨⟨pr, pst⟩, hX, hp⟩
        simp only [Prod.mk.injEq] at hp
        rw [← hp.2.1]
        exact adv_message_pres u st pr pst hX
      · split at hh
        · exact adv_confirm_pres u st sv r st2 sv2 hh
        · simp only [Option.some.injEq] at hh
          cases hh
          exact ⟨rfl, rfl, Or.inl rfl⟩

/-- A successful reroute leaves a freshly-started (or freshly-reset)
state. -/
theorem maybe_reroute_some_inv (eng : ChatbotEngine) (st : ConversationState)
    (u : String) (rep : String) (stR : ConversationState)
    (hmr : eng.maybe_reroute st u = .ok (some (rep, stR))) : StateInv stR := by
  unfold ChatbotEngine.maybe_reroute at hmr
  cases hm : matchIntent eng.intents u with
  | none => simp only [hm] at hmr; simp at hmr
  | some intent =>
    simp only [hm] at hmr
    by_cases hd : some intent.handler ≠ st.handler_key
    · rw [if_pos hd] at hmr
      cases hg : eng.handlersGet intent.handler with
      | none => simp only [hg] at hmr; simp at hmr
      | some handler =>
        simp only [hg, Handler.start_eq, Bool.false_eq_true, if_false,
          Except.ok.injEq, Option.some.injEq, Prod.mk.injEq] at hmr
        rw [← hmr.2]
        exact stateInv_started handler
    · rw [if_neg hd] at hmr
      simp at hmr

/-- `_route_to_handler` preserves the state-shape invariant. -/
theorem route_ok_inv (eng : ChatbotEngine) (st : ConversationState) (sv : Services)
    (u : String) (result : HandlerResult) (stX : ConversationState) (svX : Services)
    (hinv : StateInv st)
    (hrt : eng.route_to_handler st sv u = .ok (result, stX, svX)) :
    StateInv stX := by
  unfold ChatbotEngine.route_to_handler at hrt
  by_cases hact : st.active = false
  · rw [if_pos hact] at hrt
    cases hm : matchIntent eng.intents u with
    | none =>
      simp only [hm, Except.ok.injEq, Prod.mk.injEq] at hrt
      rw [← hrt.2.1]
      exact hinv
    | some intent =>
      simp only [hm] at hrt
      cases hg : eng.handlersGet intent.handler with
      | none => simp only [hg] at hrt; simp at hrt
      | some handler =>
        simp only [hg, Handler.start_eq, Except.ok.injEq, Prod.mk.injEq] at hrt
        rw [← hrt.2.1]
        exact stateInv_started handler
  · rw [if_neg hact] at hrt
    cases hg : eng.handlersGet (st.handler_key.getD "") with
    | none => simp only [hg] at hrt; simp at hrt
    | some handler =>
      simp only [hg] at hrt
      cases hhh : handler.handle u st sv with
      | none => simp only [hhh] at hrt; simp at hrt
      | some out =>
        obtain ⟨rr, stH, svH⟩ := out
        simp only [hhh, Except.ok.injEq, Prod.mk.injEq] at hrt
        rw [← hrt.2.1]
        obtain ⟨p1, p2, p3⟩ := handle_preserves_ids handler u st sv rr stH svH hhh
        have hact' : st.active = true := by
          cases hb : st.active with
          | false => exact absurd hb hact
          | true => rfl
        rcases hinv with ⟨q1, q2, q3⟩ | ⟨q1, q2, q3⟩
        · rw [ConversationState.active, q1, q2] at hact'
          cases hact'
        · right
          refine ⟨by rw [p1]; exact q1, by rw [p2]; exact q2, ?_⟩
          rcases p3 with p3 | ⟨s, p3⟩
          · rw [p3]; exact q3
          · rw [p3]; exact Option.some_ne_none s

/-- A normally-returning engine turn preserves the state-shape
invariant. -/
theorem engine_ok_inv (eng : ChatbotEngine) (st : ConversationState) (sv : Services)
    (u : String) (reply : String) (st2 : ConversationState) (sv2 : Services)
    (hinv : StateInv st)
    (hok : eng.handle_message st sv u = .ok (reply, st2, sv2)) :
    StateInv st2 := by
  unfold ChatbotEngine.handle_message at hok
  by_cases he : pyStrip u = ""
  · rw [if_pos he] at hok
    simp only [Except.ok.injEq, Prod.mk.injEq] at hok
    rw [← hok.2.1]
    exact hinv
  rw [if_neg he] at hok
  by_cases hc : cancel_keywords.contains (pyLower (pyStrip u)) = true
  · rw [if_pos hc] at hok
    simp only [Except.ok.injEq, Prod.mk.injEq] at hok
    rw [← hok.2.1]
    exact stateInv_empty
  rw [if_neg hc] at hok
  have hroute : (match eng.route_to_handler st sv u with
      | .error e => .error e
      | .ok (result, stX, svX) =>
        Except.ok (result.reply, if result.completed then stX.reset else stX, svX))
      = Except.ok (reply, st2, sv2) → StateInv st2 := by
    intro hok2
    cases hrt : eng.route_to_handler st sv u with
    | error e => simp only [hrt] at hok2; simp at hok2
    | ok out =>
      obtain ⟨result, stX, svX⟩ := out
      simp only [hrt, Except.ok.injEq, Prod.mk.injEq] at hok2
      rw [← hok2.2.1]
      by_cases hcm : result.completed = true
      · rw [if_pos hcm]
        exact stateInv_empty
      · rw [if_neg hcm]
        exact route_ok_inv eng st sv u result stX svX hinv hrt
  by_cases ha : st.active = true
  · rw [if_pos ha] at hok
    cases hmr : eng.maybe_reroute st u with
    | error e => simp only [hmr] at hok; simp at hok
    | ok o =>
      simp only [hmr] at hok
      cases o with
      | some p =>
        obtain ⟨rep, stR⟩ := p
        simp only [Except.ok.injEq, Prod.mk.injEq] at hok
        rw [← hok.2.1]
        exact maybe_reroute_some_inv eng st u rep stR hmr
      | none => exact hroute hok
  · rw [if_neg ha] at hok
    exact hroute hok

/-- Claim C9: the empty `ConversationState` satisfies the shape invariant
(`intent_name`, `handler_key`, `step` all `None` or all set), every
`handle_message` call that returns normally preserves it, and under it
`state.active` is true exactly when `step` is set — so the invariant holds
after every turn of a conversation started from the empty state. -/
theorem claim_engine_preserves_state_invariant (eng : ChatbotEngine)
    (st : ConversationState) (sv : Services) (u : String) (reply : String)
    (st2 : ConversationState) (sv2 : Services)
    (hinv : StateInv st)
    (hok : eng.handle_message st sv u = .ok (reply, st2, sv2)) :
    StateInv ({} : ConversationState) ∧ StateInv st2 ∧
      (st2.active = true ↔ st2.step ≠ none) := by
  have main : StateInv st2 := engine_ok_inv eng st sv u reply st2 sv2 hinv hok
  refine ⟨stateInv_empty, main, ?_⟩
  rcases main with ⟨h1, h2, h3⟩ | ⟨h1, h2, h3⟩
  · rw [ConversationState.active, h1, h2, h3]
    simp
  · rw [ConversationState.active]
    rw [Option.ne_none_iff_isSome] at h1 h2
    rw [h1, h2]
    simp [h3]

/-- Witness for C9: a cancel turn from a mid-flow state returns normally
and restores the all-`None` shape. -/
theorem claim_engine_preserves_state_invariant_witness :
    StateInv ({} : ConversationState) ∧
    StateInv ({ intent_name := none, handler_key := none, step := none,
                slots := [] } : ConversationState) ∧
    (({ intent_name := none, handler_key := none, step := none,
        slots := [] } : ConversationState).active = true ↔
      ({ intent_name := none, handler_key := none, step := none,
         slots := [] } : ConversationState).step ≠ none) := by
  exact claim_engine_preserves_state_invariant (⟨[]⟩ : ChatbotEngine)
    { intent_name := some "money_transfer", handler_key := some "money_transfer",
      step := some "collect_amount", slots := [] } {} "cancel" cancelAck
    { intent_name := none, handler_key := none, step := none, slots := [] } {}
    (Or.inr (by simp)) (by decide)

end BankingChatbot
